import Mathlib

/-!
Shallow embedding of the ML risk-scoring logic of `src/api/api.ts`
(the `getMLRiskScore` function): the feature encoder that maps a raw
positional parameter list to the `predictionVariables` indicator vector,
the (constant) scoring-request payload, and the probability-to-risk-tier
classifier applied to the scoring response.
-/

/-- A JavaScript value as it may appear in the `params` array passed to
`getMLRiskScore`: either a number (modelled as a rational) or a string. -/
inductive JSValue where
  | num (q : ℚ)
  | str (s : String)
deriving DecidableEq, Repr

/-- The numeric value of a decimal digit character, `none` otherwise. -/
def digitVal (c : Char) : Option Nat :=
  if '0' ≤ c ∧ c ≤ '9' then some (c.toNat - Char.toNat '0') else none

/-- Reads a natural number from a list of decimal digits, failing on the
first non-digit character. -/
def parseNatAux : List Char → Nat → Option Nat
  | [], acc => some acc
  | c :: cs, acc =>
    match digitVal c with
    | some d => parseNatAux cs (acc * 10 + d)
    | none => none

/-- Model of JavaScript `ToNumber` on the strings compared in this module:
a string of decimal digits denotes that natural number; every other string
(in particular every concept identifier containing letters, and the empty
string) is treated as not-a-number, so that any `==`, `<` or `>` against a
number yields `false`, as NaN comparisons do in JavaScript. -/
def toNumber (s : String) : Option ℚ :=
  match s.data with
  | [] => none
  | c :: cs => (parseNatAux (c :: cs) 0).map (fun n => (n : ℚ))

/-- JavaScript loose equality `v == 'lit'` between a value and a string
literal: string-to-string is exact comparison; a number equals the literal
only if the literal parses to that number. -/
def jsEqStr : JSValue → String → Bool
  | .num q, t => match toNumber t with | some m => decide (q = m) | none => false
  | .str s, t => decide (s = t)

/-- JavaScript loose equality `v == n` between a value and a number literal:
a string operand is converted with `ToNumber` first. -/
def jsEqNum : JSValue → ℚ → Bool
  | .num q, n => decide (q = n)
  | .str s, n => match toNumber s with | some m => decide (m = n) | none => false

/-- JavaScript relational `v < n` against a number literal: a string operand
is converted with `ToNumber`; a NaN conversion makes the comparison false. -/
def jsLtNum : JSValue → ℚ → Bool
  | .num q, n => decide (q < n)
  | .str s, n => match toNumber s with | some m => decide (m < n) | none => false

/-- JavaScript relational `v > n` against a number literal. -/
def jsGtNum : JSValue → ℚ → Bool
  | .num q, n => decide (n < q)
  | .str s, n => match toNumber s with | some m => decide (n < m) | none => false

/-- The positional `params` array of `getMLRiskScore` (RawInput): position 0
is age, 1 entry point, 2 ever-tested, 3 gender, 4 disability, 5 marital
status, 6 months since last test, 7 population type, 8 self-tested,
9 TB screening, 10 test strategy. -/
structure RawInput where
  p0 : JSValue
  p1 : JSValue
  p2 : JSValue
  p3 : JSValue
  p4 : JSValue
  p5 : JSValue
  p6 : JSValue
  p7 : JSValue
  p8 : JSValue
  p9 : JSValue
  p10 : JSValue
deriving DecidableEq, Repr

/-- The `predictionVariables` object built by `getMLRiskScore`: indicator
fields are 0/1 numbers; `MonthsSinceLastTest` keeps the raw value of
`params[6]` when that is `> 0` (the ternary copies the raw value, whatever
its type), else the number 0. -/
@[ext]
structure FeatureVector where
  AgeAtTest : ℚ
  MonthsSinceLastTest : JSValue
  GenderMale : ℚ
  GenderFemale : ℚ
  KeyPopulationTypeGP : ℚ
  KeyPopulationTypeSW : ℚ
  MaritalStatusMarried : ℚ
  MaritalStatusDivorced : ℚ
  MaritalStatusPolygamous : ℚ
  MaritalStatusWidowed : ℚ
  MaritalStatusSingle : ℚ
  MaritalStatusMinor : ℚ
  PatientDisabledNo : ℚ
  PatientDisabledDisabled : ℚ
  EverTestedForHIVYes : ℚ
  EverTestedForHivNo : ℚ
  ClientTestedAsIndividual : ℚ
  ClientTestedAsCouple : ℚ
  EntryPointVCT : ℚ
  EntryPointOPD : ℚ
  EntryPointMTC : ℚ
  EntryPointIPD : ℚ
  EntryPointMOBILE : ℚ
  EntryPointOther : ℚ
  EntryPointHB : ℚ
  EntryPointPEDS : ℚ
  EntryPointVMMC : ℚ
  EntryPointTB : ℚ
  EntryPointCCC : ℚ
  EntryPointPNS : ℚ
  TestingStrategyVCT : ℚ
  TestingStrategyHB : ℚ
  TestingStrategyMOBILE : ℚ
  TestingStrategyHP : ℚ
  TestingStrategyNP : ℚ
  TBScreeningNoPresumedTB : ℚ
  TBScreeningPresumedTB : ℚ
  ClientSelfTestedNo : ℚ
  ClientSelfTestedYes : ℚ

/-- The initial `predictionVariables` literal (lines 109-149 of
`src/api/api.ts`): everything defaults to 0 except the three fields
computed inline from `params`. -/
def initVector (params : RawInput) : FeatureVector where
  AgeAtTest := 0
  MonthsSinceLastTest := if jsGtNum params.p6 0 then params.p6 else .num 0
  GenderMale := if jsEqStr params.p3 "M" then 1 else 0
  GenderFemale := if jsEqStr params.p3 "F" then 1 else 0
  KeyPopulationTypeGP := 0
  KeyPopulationTypeSW := 0
  MaritalStatusMarried := 0
  MaritalStatusDivorced := 0
  MaritalStatusPolygamous := 0
  MaritalStatusWidowed := 0
  MaritalStatusSingle := 0
  MaritalStatusMinor := 0
  PatientDisabledNo := 0
  PatientDisabledDisabled := 0
  EverTestedForHIVYes := 0
  EverTestedForHivNo := 0
  ClientTestedAsIndividual := 0
  ClientTestedAsCouple := 0
  EntryPointVCT := 0
  EntryPointOPD := 0
  EntryPointMTC := 0
  EntryPointIPD := 0
  EntryPointMOBILE := 0
  EntryPointOther := 0
  EntryPointHB := 0
  EntryPointPEDS := 0
  EntryPointVMMC := 0
  EntryPointTB := 0
  EntryPointCCC := 0
  EntryPointPNS := 0
  TestingStrategyVCT := 0
  TestingStrategyHB := 0
  TestingStrategyMOBILE := 0
  TestingStrategyHP := 0
  TestingStrategyNP := 0
  TBScreeningNoPresumedTB := 0
  TBScreeningPresumedTB := 0
  ClientSelfTestedNo := 0
  ClientSelfTestedYes := 0

/-- "convert marital status" block (`params[5]`). -/
def maritalStatusUpdate (params : RawInput) (pv : FeatureVector) : FeatureVector :=
  if jsEqStr params.p5 "5555AAAAAAAAAAAAAAAAAAAAAAAAAAAAAAAA" then
    { pv with MaritalStatusMarried := 1 }
  else if jsEqStr params.p5 "159715AAAAAAAAAAAAAAAAAAAAAAAAAAAAAA" then
    { pv with MaritalStatusPolygamous := 1 }
  else if jsEqStr params.p5 "1058AAAAAAAAAAAAAAAAAAAAAAAAAAAAAAAA" then
    { pv with MaritalStatusDivorced := 1 }
  else if jsEqStr params.p5 "1059AAAAAAAAAAAAAAAAAAAAAAAAAAAAAAAA" then
    { pv with MaritalStatusWidowed := 1 }
  else if jsEqStr params.p5 "1057AAAAAAAAAAAAAAAAAAAAAAAAAAAAAAAA" then
    { pv with MaritalStatusSingle := 1 }
  else pv

/-- The `params[0] < 15` minor check. -/
def minorUpdate (params : RawInput) (pv : FeatureVector) : FeatureVector :=
  if jsLtNum params.p0 15 then { pv with MaritalStatusMinor := 1 } else pv

/-- "convert population type" block (`params[7]`). -/
def populationTypeUpdate (params : RawInput) (pv : FeatureVector) : FeatureVector :=
  if jsEqStr params.p7 "164928AAAAAAAAAAAAAAAAAAAAAAAAAAAAAA" then
    { pv with KeyPopulationTypeGP := 1 }
  else if jsEqStr params.p7 "164929AAAAAAAAAAAAAAAAAAAAAAAAAAAAAA" then
    { pv with KeyPopulationTypeSW := 1 }
  else pv

/-- "convert disability status" block (`params[4]`). -/
def disabilityUpdate (params : RawInput) (pv : FeatureVector) : FeatureVector :=
  if jsEqStr params.p4 "1066AAAAAAAAAAAAAAAAAAAAAAAAAAAAAAAA" then
    { pv with PatientDisabledNo := 1 }
  else if jsEqStr params.p4 "1065AAAAAAAAAAAAAAAAAAAAAAAAAAAAAAAA" then
    { pv with PatientDisabledDisabled := 1 }
  else pv

/-- "convert ever tested for hiv status" block (`params[2]`). -/
def everTestedUpdate (params : RawInput) (pv : FeatureVector) : FeatureVector :=
  if jsEqStr params.p2 "1065AAAAAAAAAAAAAAAAAAAAAAAAAAAAAAAA" then
    { pv with EverTestedForHIVYes := 1 }
  else if jsEqStr params.p2 "1066AAAAAAAAAAAAAAAAAAAAAAAAAAAAAAAA" then
    { pv with EverTestedForHivNo := 1 }
  else pv

/-- "converter for tested as i.e. individual, couple" block (also `params[2]`). -/
def testedAsUpdate (params : RawInput) (pv : FeatureVector) : FeatureVector :=
  if jsEqStr params.p2 "164957AAAAAAAAAAAAAAAAAAAAAAAAAAAAAA" then
    { pv with ClientTestedAsIndividual := 1 }
  else if jsEqStr params.p2 "164958AAAAAAAAAAAAAAAAAAAAAAAAAAAAAA" then
    { pv with ClientTestedAsCouple := 1 }
  else pv

/-- "convert entry point" block (`params[1]`); note the first branch compares
against the number literal `159940`, not a coded string. -/
def entryPointUpdate (params : RawInput) (pv : FeatureVector) : FeatureVector :=
  if jsEqNum params.p1 159940 then
    { pv with EntryPointVCT := 1 }
  else if jsEqStr params.p1 "160542AAAAAAAAAAAAAAAAAAAAAAAAAAAAAA" then
    { pv with EntryPointOPD := 1 }
  else if jsEqStr params.p1 "160456AAAAAAAAAAAAAAAAAAAAAAAAAAAAAA" then
    { pv with EntryPointMTC := 1 }
  else if jsEqStr params.p1 "5485AAAAAAAAAAAAAAAAAAAAAAAAAAAAAAAA" then
    { pv with EntryPointIPD := 1 }
  else if jsEqStr params.p1 "159939AAAAAAAAAAAAAAAAAAAAAAAAAAAAAA" then
    { pv with EntryPointMOBILE := 1 }
  else if jsEqStr params.p1 "159938AAAAAAAAAAAAAAAAAAAAAAAAAAAAAA" then
    { pv with EntryPointHB := 1 }
  else if jsEqStr params.p1 "162181AAAAAAAAAAAAAAAAAAAAAAAAAAAAAA" then
    { pv with EntryPointPEDS := 1 }
  else if jsEqStr params.p1 "5622AAAAAAAAAAAAAAAAAAAAAAAAAAAAAAAA" then
    { pv with EntryPointOther := 1 }
  else if jsEqStr params.p1 "162223AAAAAAAAAAAAAAAAAAAAAAAAAAAAAA" then
    { pv with EntryPointVMMC := 1 }
  else if jsEqStr params.p1 "160541AAAAAAAAAAAAAAAAAAAAAAAAAAAAAA" then
    { pv with EntryPointTB := 1 }
  else pv

/-- "convert strategy" block (`params[10]`). -/
def strategyUpdate (params : RawInput) (pv : FeatureVector) : FeatureVector :=
  if jsEqStr params.p10 "159938AAAAAAAAAAAAAAAAAAAAAAAAAAAAAA" then
    { pv with TestingStrategyHB := 1 }
  else if jsEqStr params.p10 "159939AAAAAAAAAAAAAAAAAAAAAAAAAAAAAA" then
    { pv with TestingStrategyMOBILE := 1 }
  else if jsEqStr params.p10 "164163AAAAAAAAAAAAAAAAAAAAAAAAAAAAAA" then
    { pv with TestingStrategyHP := 1 }
  else if jsEqStr params.p10 "164953AAAAAAAAAAAAAAAAAAAAAAAAAAAAAA" then
    { pv with TestingStrategyNP := 1 }
  else if jsEqStr params.p10 "164954AAAAAAAAAAAAAAAAAAAAAAAAAAAAAA"
      || jsEqStr params.p10 "164955AAAAAAAAAAAAAAAAAAAAAAAAAAAAAA" then
    { pv with TestingStrategyVCT := 1 }
  else pv

/-- "convert HIV self test" block (`params[8]`). -/
def selfTestUpdate (params : RawInput) (pv : FeatureVector) : FeatureVector :=
  if jsEqStr params.p8 "1066AAAAAAAAAAAAAAAAAAAAAAAAAAAAAAAA" then
    { pv with ClientSelfTestedNo := 1 }
  else if jsEqStr params.p8 "1065AAAAAAAAAAAAAAAAAAAAAAAAAAAAAAAA" then
    { pv with ClientSelfTestedYes := 1 }
  else pv

/-- "convert TB screening" block (`params[9]`). -/
def tbScreeningUpdate (params : RawInput) (pv : FeatureVector) : FeatureVector :=
  if jsEqStr params.p9 "1660AAAAAAAAAAAAAAAAAAAAAAAAAAAAAAAA"
      || jsEqStr params.p9 "160737AAAAAAAAAAAAAAAAAAAAAAAAAAAAAA" then
    { pv with TBScreeningNoPresumedTB := 1 }
  else if jsEqStr params.p9 "142177AAAAAAAAAAAAAAAAAAAAAAAAAAAAAA"
      || jsEqStr params.p9 "1111AAAAAAAAAAAAAAAAAAAAAAAAAAAAAAAA" then
    { pv with TBScreeningPresumedTB := 1 }
  else pv

/-- The fully encoded `predictionVariables` vector: the initial literal
followed by the mutation blocks of `getMLRiskScore`, in source order. -/
def predictionVariables (params : RawInput) : FeatureVector :=
  tbScreeningUpdate params
    (selfTestUpdate params
      (strategyUpdate params
        (entryPointUpdate params
          (testedAsUpdate params
            (everTestedUpdate params
              (disabilityUpdate params
                (populationTypeUpdate params
                  (minorUpdate params
                    (maritalStatusUpdate params
                      (initVector params))))))))))

/-- The `modelConfigs` object of the transmitted payload (the inline literal
at line 286 of `src/api/api.ts`, with the hardcoded date `2023-03-15`; the
`modelConfigs` variable computed from the current date at lines 273-279 is
never used in the request). -/
structure ModelConfigs where
  modelId : String
  encounterDate : String
  facilityId : String
  debug : String
deriving DecidableEq, Repr

/-- The scoring request body: model configuration plus the `variableValues`
map, modelled as an association list from variable name to numeric value. -/
structure ScoringRequestPayload where
  modelConfigs : ModelConfigs
  variableValues : List (String × ℚ)
deriving DecidableEq, Repr

/-- The `mlScoringRequestPayload` literal of `getMLRiskScore` (lines 285-457):
a fixed, fully-populated sample vector with a hardcoded encounter date. -/
def mlScoringRequestPayload : ScoringRequestPayload where
  modelConfigs :=
    { modelId := "hts_xgb_1211_jan_2023"
      encounterDate := "2023-03-15"
      facilityId := ""
      debug := "true" }
  variableValues := [
    ("Age", 17),
    ("births", 0),
    ("pregnancies", 0),
    ("literacy", 0),
    ("poverty", 0),
    ("anc", 0),
    ("pnc", 0),
    ("sba", 0),
    ("hiv_prev", 0),
    ("hiv_count", 0),
    ("condom", 0),
    ("intercourse", 0),
    ("in_union", 0),
    ("circumcision", 0),
    ("partner_away", 0),
    ("partner_men", 0),
    ("partner_women", 0),
    ("sti", 0),
    ("fb", 0),
    ("PopulationTypeGP", 1),
    ("PopulationTypeKP", 0),
    ("PopulationTypePRIORITY", 0),
    ("KeyPopulationFSW", 0),
    ("KeyPopulationMSM", 0),
    ("KeyPopulationNR", 1),
    ("KeyPopulationOther", 0),
    ("KeyPopulationPWID", 0),
    ("PriorityPopulationAGYW", 0),
    ("PriorityPopulationFISHERMEN", 0),
    ("PriorityPopulationNR", 1),
    ("PriorityPopulationOTHER", 0),
    ("DepartmentEMERGENCY", 0),
    ("DepartmentIPD", 1),
    ("DepartmentOPD", 0),
    ("DepartmentPMTCT", 0),
    ("DepartmentVCT", 0),
    ("IsHealthWorkerNO", 0),
    ("IsHealthWorkerNR", 1),
    ("IsHealthWorkerYES", 0),
    ("SexuallyActiveNO", 0),
    ("SexuallyActiveNR", 1),
    ("SexuallyActiveYES", 0),
    ("NewPartnerNO", 0),
    ("NewPartnerNR", 1),
    ("NewPartnerYES", 0),
    ("PartnerHIVStatusNEGATIVE", 0),
    ("PartnerHIVStatusNR", 1),
    ("PartnerHIVStatusPOSITIVE", 0),
    ("PartnerHIVStatusUNKNOWN", 0),
    ("NumberOfPartnersMULTIPLE", 0),
    ("NumberOfPartnersNR", 1),
    ("NumberOfPartnersSINGLE", 0),
    ("AlcoholSexALWAYS", 0),
    ("AlcoholSexNEVER", 0),
    ("AlcoholSexNR", 1),
    ("AlcoholSexSOMETIMES", 0),
    ("MoneySexNO", 0),
    ("MoneySexNR", 1),
    ("MoneySexYES", 0),
    ("CondomBurstNO", 0),
    ("CondomBurstNR", 1),
    ("CondomBurstYES", 0),
    ("UnknownStatusPartnerNO", 0),
    ("UnknownStatusPartnerNR", 1),
    ("UnknownStatusPartnerYES", 0),
    ("KnownStatusPartnerNO", 0),
    ("KnownStatusPartnerNR", 1),
    ("KnownStatusPartnerYES", 0),
    ("PregnantNO", 0),
    ("PregnantNR", 1),
    ("PregnantYES", 0),
    ("BreastfeedingMotherNO", 0),
    ("BreastfeedingMotherNR", 1),
    ("BreastfeedingMotherYES", 0),
    ("ExperiencedGBVNO", 0),
    ("ExperiencedGBVYES", 0),
    ("CurrentlyOnPrepNO", 0),
    ("CurrentlyOnPrepNR", 0),
    ("CurrentlyOnPrepYES", 0),
    ("CurrentlyHasSTINO", 0),
    ("CurrentlyHasSTINR", 0),
    ("CurrentlyHasSTIYES", 0),
    ("SharedNeedleNO", 0),
    ("SharedNeedleNR", 1),
    ("SharedNeedleYES", 0),
    ("NeedleStickInjuriesNO", 0),
    ("NeedleStickInjuriesNR", 1),
    ("NeedleStickInjuriesYES", 0),
    ("TraditionalProceduresNO", 0),
    ("TraditionalProceduresNR", 1),
    ("TraditionalProceduresYES", 0),
    ("MothersStatusNEGATIVE", 0),
    ("MothersStatusNR", 1),
    ("MothersStatusPOSITIVE", 0),
    ("MothersStatusUNKNOWN", 0),
    ("ReferredForTestingNO", 0),
    ("ReferredForTestingYES", 0),
    ("GenderFEMALE", 1),
    ("GenderMALE", 0),
    ("MaritalStatusDIVORCED", 0),
    ("MaritalStatusMARRIED", 0),
    ("MaritalStatusMINOR", 0),
    ("MaritalStatusPOLYGAMOUS", 1),
    ("MaritalStatusSINGLE", 0),
    ("EverTestedForHivNO", 0),
    ("EverTestedForHivYES", 1),
    ("MonthsSinceLastTestLASTSIXMONTHS", 0),
    ("MonthsSinceLastTestMORETHANTWOYEARS", 1),
    ("MonthsSinceLastTestNR", 0),
    ("MonthsSinceLastTestONETOTWOYEARS", 0),
    ("MonthsSinceLastTestSEVENTOTWELVE", 0),
    ("ClientTestedAsCOUPLE", 0),
    ("ClientTestedAsINDIVIDUAL", 0),
    ("EntryPointIPD", 0),
    ("EntryPointOPD", 0),
    ("EntryPointOTHER", 0),
    ("EntryPointPEDIATRIC", 0),
    ("EntryPointPMTCT_ANC", 0),
    ("EntryPointPMTCT_MAT_PNC", 0),
    ("EntryPointTB", 0),
    ("EntryPointVCT", 1),
    ("EntryPointVMMC", 0),
    ("TestStrategyHB", 0),
    ("TestStrategyHP", 0),
    ("TestStrategyINDEX", 0),
    ("TestStrategyMO", 0),
    ("TestStrategyNP", 0),
    ("TestStrategyOTHER", 0),
    ("TestStrategySNS", 0),
    ("TestStrategyVI", 0),
    ("TestStrategyVS", 1),
    ("TbScreeningCONFIRMEDTB", 0),
    ("TbScreeningNOPRESUMEDTB", 0),
    ("TbScreeningPRESUMEDTB", 0),
    ("ClientSelfTestedNO", 1),
    ("ClientSelfTestedYES", 0),
    ("CoupleDiscordantNO", 0),
    ("CoupleDiscordantNR", 1),
    ("CoupleDiscordantYES", 0),
    ("SEXUALNO", 0),
    ("SEXUALYES", 1),
    ("SOCIALNO", 1),
    ("SOCIALYES", 0),
    ("NONENO", 1),
    ("NONEYES", 0),
    ("NEEDLE_SHARINGNO", 1),
    ("NEEDLE_SHARINGYES", 0),
    ("ReceivedPrEPNO", 1),
    ("ReceivedPrEPYES", 0),
    ("ReceivedPEPNO", 1),
    ("ReceivedPEPYES", 0),
    ("ReceivedTBNO", 1),
    ("ReceivedTBYES", 0),
    ("ReceivedSTINO", 1),
    ("ReceivedSTIYES", 0),
    ("GBVSexualNO", 1),
    ("GBVSexualYES", 0),
    ("GBVPhysicalNO", 1),
    ("GBVPhysicalYES", 0),
    ("GBVEmotionalNO", 1),
    ("GBVEmotionalYES", 0),
    ("dayofweekFRIDAY", 0),
    ("dayofweekMONDAY", 0),
    ("dayofweekSATURDAY", 0),
    ("dayofweekSUNDAY", 0),
    ("dayofweekTHURSDAY", 0),
    ("dayofweekTUESDAY", 0),
    ("dayofweekWEDNESDAY", 1)]

/-- The request body sent by `getMLRiskScore` as a function of its `params`:
the dynamically encoded `predictionVariables` vector is computed but the
transmitted payload is the fixed `mlScoringRequestPayload` literal. -/
def getMLRiskScoreRequestBody (params : RawInput) : ScoringRequestPayload :=
  let _predictionVariables := predictionVariables params
  mlScoringRequestPayload

/-- The risk thresholds of `getMLRiskScore` (`lowRiskThreshold = 0.002625179`). -/
def lowRiskThreshold : ℚ := 2625179 / 1000000000

/-- `mediumRiskThreshold = 0.010638781`. -/
def mediumRiskThreshold : ℚ := 10638781 / 1000000000

/-- `highRiskThreshold = 0.028924102`. -/
def highRiskThreshold : ℚ := 28924102 / 1000000000

/-- Message returned when `probability(1) > highRiskThreshold`. -/
def veryHighMessage : String :=
  "Client has a very high probability of a HIV positive test result. Testing is strongly recommended"

/-- Message returned for the high-probability branch. -/
def highMessage : String :=
  "Client has a high probability of a HIV positive test result. Testing is strongly recommended"

/-- Message returned for the medium-probability branch. -/
def mediumMessage : String :=
  "Client has a medium probability of a HIV positive test result. Testing is recommended"

/-- Message returned for the low-probability branch. -/
def lowMessage : String :=
  "Client has a low probability of a HIV positive test result. Testing may not be recommended"

/-- Sentinel returned when no prediction is available. -/
def noResultsMessage : String := "No results found"

/-- The threshold classification applied to `result.result.predictions['probability(1)']`
in `getMLRiskScore`: the sequence of early-returning `if` statements at the
end of the function, transcribed as an if-else chain. -/
def classify (p : ℚ) : String :=
  if p > highRiskThreshold then veryHighMessage
  else if p < highRiskThreshold ∧ p > mediumRiskThreshold then highMessage
  else if p > lowRiskThreshold then mediumMessage
  else if p ≤ lowRiskThreshold then lowMessage
  else noResultsMessage

/-- The result of `getMLRiskScore` as a function of the parsed scoring
response: `some p` models a response whose `result.predictions` object is
present with `probability(1) = p`; `none` models a response (such as the
body `{}`) in which `result.predictions` is absent, taking the `else`
branch that returns the sentinel. -/
def getMLRiskScoreResult (predictions : Option ℚ) : String :=
  match predictions with
  | some p => classify p
  | none => noResultsMessage

/-- A neutral input whose eleven positions are all the empty string: no
comparison in the encoder matches it. -/
def blankInput : RawInput where
  p0 := .str ""
  p1 := .str ""
  p2 := .str ""
  p3 := .str ""
  p4 := .str ""
  p5 := .str ""
  p6 := .str ""
  p7 := .str ""
  p8 := .str ""
  p9 := .str ""
  p10 := .str ""

/-- An input whose entry-point element (position 1) is the long-form VCT
coded identifier (the concept UUID spelling of code 159940). -/
def vctLongFormInput : RawInput :=
  { blankInput with p1 := .str "159940AAAAAAAAAAAAAAAAAAAAAAAAAAAAAA" }

/-- An input whose entry-point element (position 1) is the number 159940. -/
def vctNumericInput : RawInput :=
  { blankInput with p1 := .num 159940 }
/-! Record-form description of each mutation block, proved by enumerating
the Boolean comparison outcomes, used to compute the fields of
`predictionVariables` without unfolding the whole chain at once. -/

theorem maritalStatusUpdate_eq (params : RawInput) (pv : FeatureVector) :
    maritalStatusUpdate params pv =
      { pv with
        MaritalStatusMarried :=
          if jsEqStr params.p5 "5555AAAAAAAAAAAAAAAAAAAAAAAAAAAAAAAA" then 1
          else pv.MaritalStatusMarried
        MaritalStatusPolygamous :=
          if jsEqStr params.p5 "5555AAAAAAAAAAAAAAAAAAAAAAAAAAAAAAAA" then pv.MaritalStatusPolygamous
          else if jsEqStr params.p5 "159715AAAAAAAAAAAAAAAAAAAAAAAAAAAAAA" then 1
          else pv.MaritalStatusPolygamous
        MaritalStatusDivorced :=
          if jsEqStr params.p5 "5555AAAAAAAAAAAAAAAAAAAAAAAAAAAAAAAA" then pv.MaritalStatusDivorced
          else if jsEqStr params.p5 "159715AAAAAAAAAAAAAAAAAAAAAAAAAAAAAA" then pv.MaritalStatusDivorced
          else if jsEqStr params.p5 "1058AAAAAAAAAAAAAAAAAAAAAAAAAAAAAAAA" then 1
          else pv.MaritalStatusDivorced
        MaritalStatusWidowed :=
          if jsEqStr params.p5 "5555AAAAAAAAAAAAAAAAAAAAAAAAAAAAAAAA" then pv.MaritalStatusWidowed
          else if jsEqStr params.p5 "159715AAAAAAAAAAAAAAAAAAAAAAAAAAAAAA" then pv.MaritalStatusWidowed
          else if jsEqStr params.p5 "1058AAAAAAAAAAAAAAAAAAAAAAAAAAAAAAAA" then pv.MaritalStatusWidowed
          else if jsEqStr params.p5 "1059AAAAAAAAAAAAAAAAAAAAAAAAAAAAAAAA" then 1
          else pv.MaritalStatusWidowed
        MaritalStatusSingle :=
          if jsEqStr params.p5 "5555AAAAAAAAAAAAAAAAAAAAAAAAAAAAAAAA" then pv.MaritalStatusSingle
          else if jsEqStr params.p5 "159715AAAAAAAAAAAAAAAAAAAAAAAAAAAAAA" then pv.MaritalStatusSingle
          else if jsEqStr params.p5 "1058AAAAAAAAAAAAAAAAAAAAAAAAAAAAAAAA" then pv.MaritalStatusSingle
          else if jsEqStr params.p5 "1059AAAAAAAAAAAAAAAAAAAAAAAAAAAAAAAA" then pv.MaritalStatusSingle
          else if jsEqStr params.p5 "1057AAAAAAAAAAAAAAAAAAAAAAAAAAAAAAAA" then 1
          else pv.MaritalStatusSingle
      } := by
  unfold maritalStatusUpdate
  cases h0 : jsEqStr params.p5 "5555AAAAAAAAAAAAAAAAAAAAAAAAAAAAAAAA" <;> cases h1 : jsEqStr params.p5 "159715AAAAAAAAAAAAAAAAAAAAAAAAAAAAAA" <;> cases h2 : jsEqStr params.p5 "1058AAAAAAAAAAAAAAAAAAAAAAAAAAAAAAAA" <;> cases h3 : jsEqStr params.p5 "1059AAAAAAAAAAAAAAAAAAAAAAAAAAAAAAAA" <;> cases h4 : jsEqStr params.p5 "1057AAAAAAAAAAAAAAAAAAAAAAAAAAAAAAAA" <;> rfl

theorem minorUpdate_eq (params : RawInput) (pv : FeatureVector) :
    minorUpdate params pv =
      { pv with
        MaritalStatusMinor :=
          if jsLtNum params.p0 15 then 1
          else pv.MaritalStatusMinor
      } := by
  unfold minorUpdate
  cases h0 : jsLtNum params.p0 15 <;> rfl

theorem populationTypeUpdate_eq (params : RawInput) (pv : FeatureVector) :
    populationTypeUpdate params pv =
      { pv with
        KeyPopulationTypeGP :=
          if jsEqStr params.p7 "164928AAAAAAAAAAAAAAAAAAAAAAAAAAAAAA" then 1
          else pv.KeyPopulationTypeGP
        KeyPopulationTypeSW :=
          if jsEqStr params.p7 "164928AAAAAAAAAAAAAAAAAAAAAAAAAAAAAA" then pv.KeyPopulationTypeSW
          else if jsEqStr params.p7 "164929AAAAAAAAAAAAAAAAAAAAAAAAAAAAAA" then 1
          else pv.KeyPopulationTypeSW
      } := by
  unfold populationTypeUpdate
  cases h0 : jsEqStr params.p7 "164928AAAAAAAAAAAAAAAAAAAAAAAAAAAAAA" <;> cases h1 : jsEqStr params.p7 "164929AAAAAAAAAAAAAAAAAAAAAAAAAAAAAA" <;> rfl

theorem disabilityUpdate_eq (params : RawInput) (pv : FeatureVector) :
    disabilityUpdate params pv =
      { pv with
        PatientDisabledNo :=
          if jsEqStr params.p4 "1066AAAAAAAAAAAAAAAAAAAAAAAAAAAAAAAA" then 1
          else pv.PatientDisabledNo
        PatientDisabledDisabled :=
          if jsEqStr params.p4 "1066AAAAAAAAAAAAAAAAAAAAAAAAAAAAAAAA" then pv.PatientDisabledDisabled
          else if jsEqStr params.p4 "1065AAAAAAAAAAAAAAAAAAAAAAAAAAAAAAAA" then 1
          else pv.PatientDisabledDisabled
      } := by
  unfold disabilityUpdate
  cases h0 : jsEqStr params.p4 "1066AAAAAAAAAAAAAAAAAAAAAAAAAAAAAAAA" <;> cases h1 : jsEqStr params.p4 "1065AAAAAAAAAAAAAAAAAAAAAAAAAAAAAAAA" <;> rfl

theorem everTestedUpdate_eq (params : RawInput) (pv : FeatureVector) :
    everTestedUpdate params pv =
      { pv with
        EverTestedForHIVYes :=
          if jsEqStr params.p2 "1065AAAAAAAAAAAAAAAAAAAAAAAAAAAAAAAA" then 1
          else pv.EverTestedForHIVYes
        EverTestedForHivNo :=
          if jsEqStr params.p2 "1065AAAAAAAAAAAAAAAAAAAAAAAAAAAAAAAA" then pv.EverTestedForHivNo
          else if jsEqStr params.p2 "1066AAAAAAAAAAAAAAAAAAAAAAAAAAAAAAAA" then 1
          else pv.EverTestedForHivNo
      } := by
  unfold everTestedUpdate
  cases h0 : jsEqStr params.p2 "1065AAAAAAAAAAAAAAAAAAAAAAAAAAAAAAAA" <;> cases h1 : jsEqStr params.p2 "1066AAAAAAAAAAAAAAAAAAAAAAAAAAAAAAAA" <;> rfl

theorem testedAsUpdate_eq (params : RawInput) (pv : FeatureVector) :
    testedAsUpdate params pv =
      { pv with
        ClientTestedAsIndividual :=
          if jsEqStr params.p2 "164957AAAAAAAAAAAAAAAAAAAAAAAAAAAAAA" then 1
          else pv.ClientTestedAsIndividual
        ClientTestedAsCouple :=
          if jsEqStr params.p2 "164957AAAAAAAAAAAAAAAAAAAAAAAAAAAAAA" then pv.ClientTestedAsCouple
          else if jsEqStr params.p2 "164958AAAAAAAAAAAAAAAAAAAAAAAAAAAAAA" then 1
          else pv.ClientTestedAsCouple
      } := by
  unfold testedAsUpdate
  cases h0 : jsEqStr params.p2 "164957AAAAAAAAAAAAAAAAAAAAAAAAAAAAAA" <;> cases h1 : jsEqStr params.p2 "164958AAAAAAAAAAAAAAAAAAAAAAAAAAAAAA" <;> rfl

theorem entryPointUpdate_eq (params : RawInput) (pv : FeatureVector) :
    entryPointUpdate params pv =
      { pv with
        EntryPointVCT :=
          if jsEqNum params.p1 159940 then 1
          else pv.EntryPointVCT
        EntryPointOPD :=
          if jsEqNum params.p1 159940 then pv.EntryPointOPD
          else if jsEqStr params.p1 "160542AAAAAAAAAAAAAAAAAAAAAAAAAAAAAA" then 1
          else pv.EntryPointOPD
        EntryPointMTC :=
          if jsEqNum params.p1 159940 then pv.EntryPointMTC
          else if jsEqStr params.p1 "160542AAAAAAAAAAAAAAAAAAAAAAAAAAAAAA" then pv.EntryPointMTC
          else if jsEqStr params.p1 "160456AAAAAAAAAAAAAAAAAAAAAAAAAAAAAA" then 1
          else pv.EntryPointMTC
        EntryPointIPD :=
          if jsEqNum params.p1 159940 then pv.EntryPointIPD
          else if jsEqStr params.p1 "160542AAAAAAAAAAAAAAAAAAAAAAAAAAAAAA" then pv.EntryPointIPD
          else if jsEqStr params.p1 "160456AAAAAAAAAAAAAAAAAAAAAAAAAAAAAA" then pv.EntryPointIPD
          else if jsEqStr params.p1 "5485AAAAAAAAAAAAAAAAAAAAAAAAAAAAAAAA" then 1
          else pv.EntryPointIPD
        EntryPointMOBILE :=
          if jsEqNum params.p1 159940 then pv.EntryPointMOBILE
          else if jsEqStr params.p1 "160542AAAAAAAAAAAAAAAAAAAAAAAAAAAAAA" then pv.EntryPointMOBILE
          else if jsEqStr params.p1 "160456AAAAAAAAAAAAAAAAAAAAAAAAAAAAAA" then pv.EntryPointMOBILE
          else if jsEqStr params.p1 "5485AAAAAAAAAAAAAAAAAAAAAAAAAAAAAAAA" then pv.EntryPointMOBILE
          else if jsEqStr params.p1 "159939AAAAAAAAAAAAAAAAAAAAAAAAAAAAAA" then 1
          else pv.EntryPointMOBILE
        EntryPointHB :=
          if jsEqNum params.p1 159940 then pv.EntryPointHB
          else if jsEqStr params.p1 "160542AAAAAAAAAAAAAAAAAAAAAAAAAAAAAA" then pv.EntryPointHB
          else if jsEqStr params.p1 "160456AAAAAAAAAAAAAAAAAAAAAAAAAAAAAA" then pv.EntryPointHB
          else if jsEqStr params.p1 "5485AAAAAAAAAAAAAAAAAAAAAAAAAAAAAAAA" then pv.EntryPointHB
          else if jsEqStr params.p1 "159939AAAAAAAAAAAAAAAAAAAAAAAAAAAAAA" then pv.EntryPointHB
          else if jsEqStr params.p1 "159938AAAAAAAAAAAAAAAAAAAAAAAAAAAAAA" then 1
          else pv.EntryPointHB
        EntryPointPEDS :=
          if jsEqNum params.p1 159940 then pv.EntryPointPEDS
          else if jsEqStr params.p1 "160542AAAAAAAAAAAAAAAAAAAAAAAAAAAAAA" then pv.EntryPointPEDS
          else if jsEqStr params.p1 "160456AAAAAAAAAAAAAAAAAAAAAAAAAAAAAA" then pv.EntryPointPEDS
          else if jsEqStr params.p1 "5485AAAAAAAAAAAAAAAAAAAAAAAAAAAAAAAA" then pv.EntryPointPEDS
          else if jsEqStr params.p1 "159939AAAAAAAAAAAAAAAAAAAAAAAAAAAAAA" then pv.EntryPointPEDS
          else if jsEqStr params.p1 "159938AAAAAAAAAAAAAAAAAAAAAAAAAAAAAA" then pv.EntryPointPEDS
          else if jsEqStr params.p1 "162181AAAAAAAAAAAAAAAAAAAAAAAAAAAAAA" then 1
          else pv.EntryPointPEDS
        EntryPointOther :=
          if jsEqNum params.p1 159940 then pv.EntryPointOther
          else if jsEqStr params.p1 "160542AAAAAAAAAAAAAAAAAAAAAAAAAAAAAA" then pv.EntryPointOther
          else if jsEqStr params.p1 "160456AAAAAAAAAAAAAAAAAAAAAAAAAAAAAA" then pv.EntryPointOther
          else if jsEqStr params.p1 "5485AAAAAAAAAAAAAAAAAAAAAAAAAAAAAAAA" then pv.EntryPointOther
          else if jsEqStr params.p1 "159939AAAAAAAAAAAAAAAAAAAAAAAAAAAAAA" then pv.EntryPointOther
          else if jsEqStr params.p1 "159938AAAAAAAAAAAAAAAAAAAAAAAAAAAAAA" then pv.EntryPointOther
          else if jsEqStr params.p1 "162181AAAAAAAAAAAAAAAAAAAAAAAAAAAAAA" then pv.EntryPointOther
          else if jsEqStr params.p1 "5622AAAAAAAAAAAAAAAAAAAAAAAAAAAAAAAA" then 1
          else pv.EntryPointOther
        EntryPointVMMC :=
          if jsEqNum params.p1 159940 then pv.EntryPointVMMC
          else if jsEqStr params.p1 "160542AAAAAAAAAAAAAAAAAAAAAAAAAAAAAA" then pv.EntryPointVMMC
          else if jsEqStr params.p1 "160456AAAAAAAAAAAAAAAAAAAAAAAAAAAAAA" then pv.EntryPointVMMC
          else if jsEqStr params.p1 "5485AAAAAAAAAAAAAAAAAAAAAAAAAAAAAAAA" then pv.EntryPointVMMC
          else if jsEqStr params.p1 "159939AAAAAAAAAAAAAAAAAAAAAAAAAAAAAA" then pv.EntryPointVMMC
          else if jsEqStr params.p1 "159938AAAAAAAAAAAAAAAAAAAAAAAAAAAAAA" then pv.EntryPointVMMC
          else if jsEqStr params.p1 "162181AAAAAAAAAAAAAAAAAAAAAAAAAAAAAA" then pv.EntryPointVMMC
          else if jsEqStr params.p1 "5622AAAAAAAAAAAAAAAAAAAAAAAAAAAAAAAA" then pv.EntryPointVMMC
          else if jsEqStr params.p1 "162223AAAAAAAAAAAAAAAAAAAAAAAAAAAAAA" then 1
          else pv.EntryPointVMMC
        EntryPointTB :=
          if jsEqNum params.p1 159940 then pv.EntryPointTB
          else if jsEqStr params.p1 "160542AAAAAAAAAAAAAAAAAAAAAAAAAAAAAA" then pv.EntryPointTB
          else if jsEqStr params.p1 "160456AAAAAAAAAAAAAAAAAAAAAAAAAAAAAA" then pv.EntryPointTB
          else if jsEqStr params.p1 "5485AAAAAAAAAAAAAAAAAAAAAAAAAAAAAAAA" then pv.EntryPointTB
          else if jsEqStr params.p1 "159939AAAAAAAAAAAAAAAAAAAAAAAAAAAAAA" then pv.EntryPointTB
          else if jsEqStr params.p1 "159938AAAAAAAAAAAAAAAAAAAAAAAAAAAAAA" then pv.EntryPointTB
          else if jsEqStr params.p1 "162181AAAAAAAAAAAAAAAAAAAAAAAAAAAAAA" then pv.EntryPointTB
          else if jsEqStr params.p1 "5622AAAAAAAAAAAAAAAAAAAAAAAAAAAAAAAA" then pv.EntryPointTB
          else if jsEqStr params.p1 "162223AAAAAAAAAAAAAAAAAAAAAAAAAAAAAA" then pv.EntryPointTB
          else if jsEqStr params.p1 "160541AAAAAAAAAAAAAAAAAAAAAAAAAAAAAA" then 1
          else pv.EntryPointTB
      } := by
  unfold entryPointUpdate
  cases h0 : jsEqNum params.p1 159940 <;> cases h1 : jsEqStr params.p1 "160542AAAAAAAAAAAAAAAAAAAAAAAAAAAAAA" <;> cases h2 : jsEqStr params.p1 "160456AAAAAAAAAAAAAAAAAAAAAAAAAAAAAA" <;> cases h3 : jsEqStr params.p1 "5485AAAAAAAAAAAAAAAAAAAAAAAAAAAAAAAA" <;> cases h4 : jsEqStr params.p1 "159939AAAAAAAAAAAAAAAAAAAAAAAAAAAAAA" <;> cases h5 : jsEqStr params.p1 "159938AAAAAAAAAAAAAAAAAAAAAAAAAAAAAA" <;> cases h6 : jsEqStr params.p1 "162181AAAAAAAAAAAAAAAAAAAAAAAAAAAAAA" <;> cases h7 : jsEqStr params.p1 "5622AAAAAAAAAAAAAAAAAAAAAAAAAAAAAAAA" <;> cases h8 : jsEqStr params.p1 "162223AAAAAAAAAAAAAAAAAAAAAAAAAAAAAA" <;> cases h9 : jsEqStr params.p1 "160541AAAAAAAAAAAAAAAAAAAAAAAAAAAAAA" <;> rfl

theorem strategyUpdate_eq (params : RawInput) (pv : FeatureVector) :
    strategyUpdate params pv =
      { pv with
        TestingStrategyHB :=
          if jsEqStr params.p10 "159938AAAAAAAAAAAAAAAAAAAAAAAAAAAAAA" then 1
          else pv.TestingStrategyHB
        TestingStrategyMOBILE :=
          if jsEqStr params.p10 "159938AAAAAAAAAAAAAAAAAAAAAAAAAAAAAA" then pv.TestingStrategyMOBILE
          else if jsEqStr params.p10 "159939AAAAAAAAAAAAAAAAAAAAAAAAAAAAAA" then 1
          else pv.TestingStrategyMOBILE
        TestingStrategyHP :=
          if jsEqStr params.p10 "159938AAAAAAAAAAAAAAAAAAAAAAAAAAAAAA" then pv.TestingStrategyHP
          else if jsEqStr params.p10 "159939AAAAAAAAAAAAAAAAAAAAAAAAAAAAAA" then pv.TestingStrategyHP
          else if jsEqStr params.p10 "164163AAAAAAAAAAAAAAAAAAAAAAAAAAAAAA" then 1
          else pv.TestingStrategyHP
        TestingStrategyNP :=
          if jsEqStr params.p10 "159938AAAAAAAAAAAAAAAAAAAAAAAAAAAAAA" then pv.TestingStrategyNP
          else if jsEqStr params.p10 "159939AAAAAAAAAAAAAAAAAAAAAAAAAAAAAA" then pv.TestingStrategyNP
          else if jsEqStr params.p10 "164163AAAAAAAAAAAAAAAAAAAAAAAAAAAAAA" then pv.TestingStrategyNP
          else if jsEqStr params.p10 "164953AAAAAAAAAAAAAAAAAAAAAAAAAAAAAA" then 1
          else pv.TestingStrategyNP
        TestingStrategyVCT :=
          if jsEqStr params.p10 "159938AAAAAAAAAAAAAAAAAAAAAAAAAAAAAA" then pv.TestingStrategyVCT
          else if jsEqStr params.p10 "159939AAAAAAAAAAAAAAAAAAAAAAAAAAAAAA" then pv.TestingStrategyVCT
          else if jsEqStr params.p10 "164163AAAAAAAAAAAAAAAAAAAAAAAAAAAAAA" then pv.TestingStrategyVCT
          else if jsEqStr params.p10 "164953AAAAAAAAAAAAAAAAAAAAAAAAAAAAAA" then pv.TestingStrategyVCT
          else if (jsEqStr params.p10 "164954AAAAAAAAAAAAAAAAAAAAAAAAAAAAAA" || jsEqStr params.p10 "164955AAAAAAAAAAAAAAAAAAAAAAAAAAAAAA") then 1
          else pv.TestingStrategyVCT
      } := by
  unfold strategyUpdate
  cases h0 : jsEqStr params.p10 "159938AAAAAAAAAAAAAAAAAAAAAAAAAAAAAA" <;> cases h1 : jsEqStr params.p10 "159939AAAAAAAAAAAAAAAAAAAAAAAAAAAAAA" <;> cases h2 : jsEqStr params.p10 "164163AAAAAAAAAAAAAAAAAAAAAAAAAAAAAA" <;> cases h3 : jsEqStr params.p10 "164953AAAAAAAAAAAAAAAAAAAAAAAAAAAAAA" <;> cases h4 : (jsEqStr params.p10 "164954AAAAAAAAAAAAAAAAAAAAAAAAAAAAAA" || jsEqStr params.p10 "164955AAAAAAAAAAAAAAAAAAAAAAAAAAAAAA") <;> rfl

theorem selfTestUpdate_eq (params : RawInput) (pv : FeatureVector) :
    selfTestUpdate params pv =
      { pv with
        ClientSelfTestedNo :=
          if jsEqStr params.p8 "1066AAAAAAAAAAAAAAAAAAAAAAAAAAAAAAAA" then 1
          else pv.ClientSelfTestedNo
        ClientSelfTestedYes :=
          if jsEqStr params.p8 "1066AAAAAAAAAAAAAAAAAAAAAAAAAAAAAAAA" then pv.ClientSelfTestedYes
          else if jsEqStr params.p8 "1065AAAAAAAAAAAAAAAAAAAAAAAAAAAAAAAA" then 1
          else pv.ClientSelfTestedYes
      } := by
  unfold selfTestUpdate
  cases h0 : jsEqStr params.p8 "1066AAAAAAAAAAAAAAAAAAAAAAAAAAAAAAAA" <;> cases h1 : jsEqStr params.p8 "1065AAAAAAAAAAAAAAAAAAAAAAAAAAAAAAAA" <;> rfl

theorem tbScreeningUpdate_eq (params : RawInput) (pv : FeatureVector) :
    tbScreeningUpdate params pv =
      { pv with
        TBScreeningNoPresumedTB :=
          if (jsEqStr params.p9 "1660AAAAAAAAAAAAAAAAAAAAAAAAAAAAAAAA" || jsEqStr params.p9 "160737AAAAAAAAAAAAAAAAAAAAAAAAAAAAAA") then 1
          else pv.TBScreeningNoPresumedTB
        TBScreeningPresumedTB :=
          if (jsEqStr params.p9 "1660AAAAAAAAAAAAAAAAAAAAAAAAAAAAAAAA" || jsEqStr params.p9 "160737AAAAAAAAAAAAAAAAAAAAAAAAAAAAAA") then pv.TBScreeningPresumedTB
          else if (jsEqStr params.p9 "142177AAAAAAAAAAAAAAAAAAAAAAAAAAAAAA" || jsEqStr params.p9 "1111AAAAAAAAAAAAAAAAAAAAAAAAAAAAAAAA") then 1
          else pv.TBScreeningPresumedTB
      } := by
  unfold tbScreeningUpdate
  cases h0 : (jsEqStr params.p9 "1660AAAAAAAAAAAAAAAAAAAAAAAAAAAAAAAA" || jsEqStr params.p9 "160737AAAAAAAAAAAAAAAAAAAAAAAAAAAAAA") <;> cases h1 : (jsEqStr params.p9 "142177AAAAAAAAAAAAAAAAAAAAAAAAAAAAAA" || jsEqStr params.p9 "1111AAAAAAAAAAAAAAAAAAAAAAAAAAAAAAAA") <;> rfl

/-! Closed-form value of every `predictionVariables` field. -/

theorem predictionVariables_AgeAtTest (params : RawInput) :
    (predictionVariables params).AgeAtTest =
      0 := by
  simp only [predictionVariables, tbScreeningUpdate_eq, selfTestUpdate_eq, strategyUpdate_eq,
    entryPointUpdate_eq, testedAsUpdate_eq, everTestedUpdate_eq, disabilityUpdate_eq,
    populationTypeUpdate_eq, minorUpdate_eq, maritalStatusUpdate_eq, initVector]

theorem predictionVariables_MonthsSinceLastTest (params : RawInput) :
    (predictionVariables params).MonthsSinceLastTest =
      if jsGtNum params.p6 0 then params.p6 else JSValue.num 0 := by
  simp only [predictionVariables, tbScreeningUpdate_eq, selfTestUpdate_eq, strategyUpdate_eq,
    entryPointUpdate_eq, testedAsUpdate_eq, everTestedUpdate_eq, disabilityUpdate_eq,
    populationTypeUpdate_eq, minorUpdate_eq, maritalStatusUpdate_eq, initVector]

theorem predictionVariables_GenderMale (params : RawInput) :
    (predictionVariables params).GenderMale =
      if jsEqStr params.p3 "M" then 1 else 0 := by
  simp only [predictionVariables, tbScreeningUpdate_eq, selfTestUpdate_eq, strategyUpdate_eq,
    entryPointUpdate_eq, testedAsUpdate_eq, everTestedUpdate_eq, disabilityUpdate_eq,
    populationTypeUpdate_eq, minorUpdate_eq, maritalStatusUpdate_eq, initVector]

theorem predictionVariables_GenderFemale (params : RawInput) :
    (predictionVariables params).GenderFemale =
      if jsEqStr params.p3 "F" then 1 else 0 := by
  simp only [predictionVariables, tbScreeningUpdate_eq, selfTestUpdate_eq, strategyUpdate_eq,
    entryPointUpdate_eq, testedAsUpdate_eq, everTestedUpdate_eq, disabilityUpdate_eq,
    populationTypeUpdate_eq, minorUpdate_eq, maritalStatusUpdate_eq, initVector]

theorem predictionVariables_KeyPopulationTypeGP (params : RawInput) :
    (predictionVariables params).KeyPopulationTypeGP =
      if jsEqStr params.p7 "164928AAAAAAAAAAAAAAAAAAAAAAAAAAAAAA" then 1
      else 0 := by
  simp only [predictionVariables, tbScreeningUpdate_eq, selfTestUpdate_eq, strategyUpdate_eq,
    entryPointUpdate_eq, testedAsUpdate_eq, everTestedUpdate_eq, disabilityUpdate_eq,
    populationTypeUpdate_eq, minorUpdate_eq, maritalStatusUpdate_eq, initVector]

theorem predictionVariables_KeyPopulationTypeSW (params : RawInput) :
    (predictionVariables params).KeyPopulationTypeSW =
      if jsEqStr params.p7 "164928AAAAAAAAAAAAAAAAAAAAAAAAAAAAAA" then 0
      else if jsEqStr params.p7 "164929AAAAAAAAAAAAAAAAAAAAAAAAAAAAAA" then 1
      else 0 := by
  simp only [predictionVariables, tbScreeningUpdate_eq, selfTestUpdate_eq, strategyUpdate_eq,
    entryPointUpdate_eq, testedAsUpdate_eq, everTestedUpdate_eq, disabilityUpdate_eq,
    populationTypeUpdate_eq, minorUpdate_eq, maritalStatusUpdate_eq, initVector]

theorem predictionVariables_MaritalStatusMarried (params : RawInput) :
    (predictionVariables params).MaritalStatusMarried =
      if jsEqStr params.p5 "5555AAAAAAAAAAAAAAAAAAAAAAAAAAAAAAAA" then 1
      else 0 := by
  simp only [predictionVariables, tbScreeningUpdate_eq, selfTestUpdate_eq, strategyUpdate_eq,
    entryPointUpdate_eq, testedAsUpdate_eq, everTestedUpdate_eq, disabilityUpdate_eq,
    populationTypeUpdate_eq, minorUpdate_eq, maritalStatusUpdate_eq, initVector]

theorem predictionVariables_MaritalStatusDivorced (params : RawInput) :
    (predictionVariables params).MaritalStatusDivorced =
      if jsEqStr params.p5 "5555AAAAAAAAAAAAAAAAAAAAAAAAAAAAAAAA" then 0
      else if jsEqStr params.p5 "159715AAAAAAAAAAAAAAAAAAAAAAAAAAAAAA" then 0
      else if jsEqStr params.p5 "1058AAAAAAAAAAAAAAAAAAAAAAAAAAAAAAAA" then 1
      else 0 := by
  simp only [predictionVariables, tbScreeningUpdate_eq, selfTestUpdate_eq, strategyUpdate_eq,
    entryPointUpdate_eq, testedAsUpdate_eq, everTestedUpdate_eq, disabilityUpdate_eq,
    populationTypeUpdate_eq, minorUpdate_eq, maritalStatusUpdate_eq, initVector]

theorem predictionVariables_MaritalStatusPolygamous (params : RawInput) :
    (predictionVariables params).MaritalStatusPolygamous =
      if jsEqStr params.p5 "5555AAAAAAAAAAAAAAAAAAAAAAAAAAAAAAAA" then 0
      else if jsEqStr params.p5 "159715AAAAAAAAAAAAAAAAAAAAAAAAAAAAAA" then 1
      else 0 := by
  simp only [predictionVariables, tbScreeningUpdate_eq, selfTestUpdate_eq, strategyUpdate_eq,
    entryPointUpdate_eq, testedAsUpdate_eq, everTestedUpdate_eq, disabilityUpdate_eq,
    populationTypeUpdate_eq, minorUpdate_eq, maritalStatusUpdate_eq, initVector]

theorem predictionVariables_MaritalStatusWidowed (params : RawInput) :
    (predictionVariables params).MaritalStatusWidowed =
      if jsEqStr params.p5 "5555AAAAAAAAAAAAAAAAAAAAAAAAAAAAAAAA" then 0
      else if jsEqStr params.p5 "159715AAAAAAAAAAAAAAAAAAAAAAAAAAAAAA" then 0
      else if jsEqStr params.p5 "1058AAAAAAAAAAAAAAAAAAAAAAAAAAAAAAAA" then 0
      else if jsEqStr params.p5 "1059AAAAAAAAAAAAAAAAAAAAAAAAAAAAAAAA" then 1
      else 0 := by
  simp only [predictionVariables, tbScreeningUpdate_eq, selfTestUpdate_eq, strategyUpdate_eq,
    entryPointUpdate_eq, testedAsUpdate_eq, everTestedUpdate_eq, disabilityUpdate_eq,
    populationTypeUpdate_eq, minorUpdate_eq, maritalStatusUpdate_eq, initVector]

theorem predictionVariables_MaritalStatusSingle (params : RawInput) :
    (predictionVariables params).MaritalStatusSingle =
      if jsEqStr params.p5 "5555AAAAAAAAAAAAAAAAAAAAAAAAAAAAAAAA" then 0
      else if jsEqStr params.p5 "159715AAAAAAAAAAAAAAAAAAAAAAAAAAAAAA" then 0
      else if jsEqStr params.p5 "1058AAAAAAAAAAAAAAAAAAAAAAAAAAAAAAAA" then 0
      else if jsEqStr params.p5 "1059AAAAAAAAAAAAAAAAAAAAAAAAAAAAAAAA" then 0
      else if jsEqStr params.p5 "1057AAAAAAAAAAAAAAAAAAAAAAAAAAAAAAAA" then 1
      else 0 := by
  simp only [predictionVariables, tbScreeningUpdate_eq, selfTestUpdate_eq, strategyUpdate_eq,
    entryPointUpdate_eq, testedAsUpdate_eq, everTestedUpdate_eq, disabilityUpdate_eq,
    populationTypeUpdate_eq, minorUpdate_eq, maritalStatusUpdate_eq, initVector]

theorem predictionVariables_MaritalStatusMinor (params : RawInput) :
    (predictionVariables params).MaritalStatusMinor =
      if jsLtNum params.p0 15 then 1
      else 0 := by
  simp only [predictionVariables, tbScreeningUpdate_eq, selfTestUpdate_eq, strategyUpdate_eq,
    entryPointUpdate_eq, testedAsUpdate_eq, everTestedUpdate_eq, disabilityUpdate_eq,
    populationTypeUpdate_eq, minorUpdate_eq, maritalStatusUpdate_eq, initVector]

theorem predictionVariables_PatientDisabledNo (params : RawInput) :
    (predictionVariables params).PatientDisabledNo =
      if jsEqStr params.p4 "1066AAAAAAAAAAAAAAAAAAAAAAAAAAAAAAAA" then 1
      else 0 := by
  simp only [predictionVariables, tbScreeningUpdate_eq, selfTestUpdate_eq, strategyUpdate_eq,
    entryPointUpdate_eq, testedAsUpdate_eq, everTestedUpdate_eq, disabilityUpdate_eq,
    populationTypeUpdate_eq, minorUpdate_eq, maritalStatusUpdate_eq, initVector]

theorem predictionVariables_PatientDisabledDisabled (params : RawInput) :
    (predictionVariables params).PatientDisabledDisabled =
      if jsEqStr params.p4 "1066AAAAAAAAAAAAAAAAAAAAAAAAAAAAAAAA" then 0
      else if jsEqStr params.p4 "1065AAAAAAAAAAAAAAAAAAAAAAAAAAAAAAAA" then 1
      else 0 := by
  simp only [predictionVariables, tbScreeningUpdate_eq, selfTestUpdate_eq, strategyUpdate_eq,
    entryPointUpdate_eq, testedAsUpdate_eq, everTestedUpdate_eq, disabilityUpdate_eq,
    populationTypeUpdate_eq, minorUpdate_eq, maritalStatusUpdate_eq, initVector]

theorem predictionVariables_EverTestedForHIVYes (params : RawInput) :
    (predictionVariables params).EverTestedForHIVYes =
      if jsEqStr params.p2 "1065AAAAAAAAAAAAAAAAAAAAAAAAAAAAAAAA" then 1
      else 0 := by
  simp only [predictionVariables, tbScreeningUpdate_eq, selfTestUpdate_eq, strategyUpdate_eq,
    entryPointUpdate_eq, testedAsUpdate_eq, everTestedUpdate_eq, disabilityUpdate_eq,
    populationTypeUpdate_eq, minorUpdate_eq, maritalStatusUpdate_eq, initVector]

theorem predictionVariables_EverTestedForHivNo (params : RawInput) :
    (predictionVariables params).EverTestedForHivNo =
      if jsEqStr params.p2 "1065AAAAAAAAAAAAAAAAAAAAAAAAAAAAAAAA" then 0
      else if jsEqStr params.p2 "1066AAAAAAAAAAAAAAAAAAAAAAAAAAAAAAAA" then 1
      else 0 := by
  simp only [predictionVariables, tbScreeningUpdate_eq, selfTestUpdate_eq, strategyUpdate_eq,
    entryPointUpdate_eq, testedAsUpdate_eq, everTestedUpdate_eq, disabilityUpdate_eq,
    populationTypeUpdate_eq, minorUpdate_eq, maritalStatusUpdate_eq, initVector]

theorem predictionVariables_ClientTestedAsIndividual (params : RawInput) :
    (predictionVariables params).ClientTestedAsIndividual =
      if jsEqStr params.p2 "164957AAAAAAAAAAAAAAAAAAAAAAAAAAAAAA" then 1
      else 0 := by
  simp only [predictionVariables, tbScreeningUpdate_eq, selfTestUpdate_eq, strategyUpdate_eq,
    entryPointUpdate_eq, testedAsUpdate_eq, everTestedUpdate_eq, disabilityUpdate_eq,
    populationTypeUpdate_eq, minorUpdate_eq, maritalStatusUpdate_eq, initVector]

theorem predictionVariables_ClientTestedAsCouple (params : RawInput) :
    (predictionVariables params).ClientTestedAsCouple =
      if jsEqStr params.p2 "164957AAAAAAAAAAAAAAAAAAAAAAAAAAAAAA" then 0
      else if jsEqStr params.p2 "164958AAAAAAAAAAAAAAAAAAAAAAAAAAAAAA" then 1
      else 0 := by
  simp only [predictionVariables, tbScreeningUpdate_eq, selfTestUpdate_eq, strategyUpdate_eq,
    entryPointUpdate_eq, testedAsUpdate_eq, everTestedUpdate_eq, disabilityUpdate_eq,
    populationTypeUpdate_eq, minorUpdate_eq, maritalStatusUpdate_eq, initVector]

theorem predictionVariables_EntryPointVCT (params : RawInput) :
    (predictionVariables params).EntryPointVCT =
      if jsEqNum params.p1 159940 then 1
      else 0 := by
  simp only [predictionVariables, tbScreeningUpdate_eq, selfTestUpdate_eq, strategyUpdate_eq,
    entryPointUpdate_eq, testedAsUpdate_eq, everTestedUpdate_eq, disabilityUpdate_eq,
    populationTypeUpdate_eq, minorUpdate_eq, maritalStatusUpdate_eq, initVector]

theorem predictionVariables_EntryPointOPD (params : RawInput) :
    (predictionVariables params).EntryPointOPD =
      if jsEqNum params.p1 159940 then 0
      else if jsEqStr params.p1 "160542AAAAAAAAAAAAAAAAAAAAAAAAAAAAAA" then 1
      else 0 := by
  simp only [predictionVariables, tbScreeningUpdate_eq, selfTestUpdate_eq, strategyUpdate_eq,
    entryPointUpdate_eq, testedAsUpdate_eq, everTestedUpdate_eq, disabilityUpdate_eq,
    populationTypeUpdate_eq, minorUpdate_eq, maritalStatusUpdate_eq, initVector]

theorem predictionVariables_EntryPointMTC (params : RawInput) :
    (predictionVariables params).EntryPointMTC =
      if jsEqNum params.p1 159940 then 0
      else if jsEqStr params.p1 "160542AAAAAAAAAAAAAAAAAAAAAAAAAAAAAA" then 0
      else if jsEqStr params.p1 "160456AAAAAAAAAAAAAAAAAAAAAAAAAAAAAA" then 1
      else 0 := by
  simp only [predictionVariables, tbScreeningUpdate_eq, selfTestUpdate_eq, strategyUpdate_eq,
    entryPointUpdate_eq, testedAsUpdate_eq, everTestedUpdate_eq, disabilityUpdate_eq,
    populationTypeUpdate_eq, minorUpdate_eq, maritalStatusUpdate_eq, initVector]

theorem predictionVariables_EntryPointIPD (params : RawInput) :
    (predictionVariables params).EntryPointIPD =
      if jsEqNum params.p1 159940 then 0
      else if jsEqStr params.p1 "160542AAAAAAAAAAAAAAAAAAAAAAAAAAAAAA" then 0
      else if jsEqStr params.p1 "160456AAAAAAAAAAAAAAAAAAAAAAAAAAAAAA" then 0
      else if jsEqStr params.p1 "5485AAAAAAAAAAAAAAAAAAAAAAAAAAAAAAAA" then 1
      else 0 := by
  simp only [predictionVariables, tbScreeningUpdate_eq, selfTestUpdate_eq, strategyUpdate_eq,
    entryPointUpdate_eq, testedAsUpdate_eq, everTestedUpdate_eq, disabilityUpdate_eq,
    populationTypeUpdate_eq, minorUpdate_eq, maritalStatusUpdate_eq, initVector]

theorem predictionVariables_EntryPointMOBILE (params : RawInput) :
    (predictionVariables params).EntryPointMOBILE =
      if jsEqNum params.p1 159940 then 0
      else if jsEqStr params.p1 "160542AAAAAAAAAAAAAAAAAAAAAAAAAAAAAA" then 0
      else if jsEqStr params.p1 "160456AAAAAAAAAAAAAAAAAAAAAAAAAAAAAA" then 0
      else if jsEqStr params.p1 "5485AAAAAAAAAAAAAAAAAAAAAAAAAAAAAAAA" then 0
      else if jsEqStr params.p1 "159939AAAAAAAAAAAAAAAAAAAAAAAAAAAAAA" then 1
      else 0 := by
  simp only [predictionVariables, tbScreeningUpdate_eq, selfTestUpdate_eq, strategyUpdate_eq,
    entryPointUpdate_eq, testedAsUpdate_eq, everTestedUpdate_eq, disabilityUpdate_eq,
    populationTypeUpdate_eq, minorUpdate_eq, maritalStatusUpdate_eq, initVector]

theorem predictionVariables_EntryPointOther (params : RawInput) :
    (predictionVariables params).EntryPointOther =
      if jsEqNum params.p1 159940 then 0
      else if jsEqStr params.p1 "160542AAAAAAAAAAAAAAAAAAAAAAAAAAAAAA" then 0
      else if jsEqStr params.p1 "160456AAAAAAAAAAAAAAAAAAAAAAAAAAAAAA" then 0
      else if jsEqStr params.p1 "5485AAAAAAAAAAAAAAAAAAAAAAAAAAAAAAAA" then 0
      else if jsEqStr params.p1 "159939AAAAAAAAAAAAAAAAAAAAAAAAAAAAAA" then 0
      else if jsEqStr params.p1 "159938AAAAAAAAAAAAAAAAAAAAAAAAAAAAAA" then 0
      else if jsEqStr params.p1 "162181AAAAAAAAAAAAAAAAAAAAAAAAAAAAAA" then 0
      else if jsEqStr params.p1 "5622AAAAAAAAAAAAAAAAAAAAAAAAAAAAAAAA" then 1
      else 0 := by
  simp only [predictionVariables, tbScreeningUpdate_eq, selfTestUpdate_eq, strategyUpdate_eq,
    entryPointUpdate_eq, testedAsUpdate_eq, everTestedUpdate_eq, disabilityUpdate_eq,
    populationTypeUpdate_eq, minorUpdate_eq, maritalStatusUpdate_eq, initVector]

theorem predictionVariables_EntryPointHB (params : RawInput) :
    (predictionVariables params).EntryPointHB =
      if jsEqNum params.p1 159940 then 0
      else if jsEqStr params.p1 "160542AAAAAAAAAAAAAAAAAAAAAAAAAAAAAA" then 0
      else if jsEqStr params.p1 "160456AAAAAAAAAAAAAAAAAAAAAAAAAAAAAA" then 0
      else if jsEqStr params.p1 "5485AAAAAAAAAAAAAAAAAAAAAAAAAAAAAAAA" then 0
      else if jsEqStr params.p1 "159939AAAAAAAAAAAAAAAAAAAAAAAAAAAAAA" then 0
      else if jsEqStr params.p1 "159938AAAAAAAAAAAAAAAAAAAAAAAAAAAAAA" then 1
      else 0 := by
  simp only [predictionVariables, tbScreeningUpdate_eq, selfTestUpdate_eq, strategyUpdate_eq,
    entryPointUpdate_eq, testedAsUpdate_eq, everTestedUpdate_eq, disabilityUpdate_eq,
    populationTypeUpdate_eq, minorUpdate_eq, maritalStatusUpdate_eq, initVector]

theorem predictionVariables_EntryPointPEDS (params : RawInput) :
    (predictionVariables params).EntryPointPEDS =
      if jsEqNum params.p1 159940 then 0
      else if jsEqStr params.p1 "160542AAAAAAAAAAAAAAAAAAAAAAAAAAAAAA" then 0
      else if jsEqStr params.p1 "160456AAAAAAAAAAAAAAAAAAAAAAAAAAAAAA" then 0
      else if jsEqStr params.p1 "5485AAAAAAAAAAAAAAAAAAAAAAAAAAAAAAAA" then 0
      else if jsEqStr params.p1 "159939AAAAAAAAAAAAAAAAAAAAAAAAAAAAAA" then 0
      else if jsEqStr params.p1 "159938AAAAAAAAAAAAAAAAAAAAAAAAAAAAAA" then 0
      else if jsEqStr params.p1 "162181AAAAAAAAAAAAAAAAAAAAAAAAAAAAAA" then 1
      else 0 := by
  simp only [predictionVariables, tbScreeningUpdate_eq, selfTestUpdate_eq, strategyUpdate_eq,
    entryPointUpdate_eq, testedAsUpdate_eq, everTestedUpdate_eq, disabilityUpdate_eq,
    populationTypeUpdate_eq, minorUpdate_eq, maritalStatusUpdate_eq, initVector]

theorem predictionVariables_EntryPointVMMC (params : RawInput) :
    (predictionVariables params).EntryPointVMMC =
      if jsEqNum params.p1 159940 then 0
      else if jsEqStr params.p1 "160542AAAAAAAAAAAAAAAAAAAAAAAAAAAAAA" then 0
      else if jsEqStr params.p1 "160456AAAAAAAAAAAAAAAAAAAAAAAAAAAAAA" then 0
      else if jsEqStr params.p1 "5485AAAAAAAAAAAAAAAAAAAAAAAAAAAAAAAA" then 0
      else if jsEqStr params.p1 "159939AAAAAAAAAAAAAAAAAAAAAAAAAAAAAA" then 0
      else if jsEqStr params.p1 "159938AAAAAAAAAAAAAAAAAAAAAAAAAAAAAA" then 0
      else if jsEqStr params.p1 "162181AAAAAAAAAAAAAAAAAAAAAAAAAAAAAA" then 0
      else if jsEqStr params.p1 "5622AAAAAAAAAAAAAAAAAAAAAAAAAAAAAAAA" then 0
      else if jsEqStr params.p1 "162223AAAAAAAAAAAAAAAAAAAAAAAAAAAAAA" then 1
      else 0 := by
  simp only [predictionVariables, tbScreeningUpdate_eq, selfTestUpdate_eq, strategyUpdate_eq,
    entryPointUpdate_eq, testedAsUpdate_eq, everTestedUpdate_eq, disabilityUpdate_eq,
    populationTypeUpdate_eq, minorUpdate_eq, maritalStatusUpdate_eq, initVector]

theorem predictionVariables_EntryPointTB (params : RawInput) :
    (predictionVariables params).EntryPointTB =
      if jsEqNum params.p1 159940 then 0
      else if jsEqStr params.p1 "160542AAAAAAAAAAAAAAAAAAAAAAAAAAAAAA" then 0
      else if jsEqStr params.p1 "160456AAAAAAAAAAAAAAAAAAAAAAAAAAAAAA" then 0
      else if jsEqStr params.p1 "5485AAAAAAAAAAAAAAAAAAAAAAAAAAAAAAAA" then 0
      else if jsEqStr params.p1 "159939AAAAAAAAAAAAAAAAAAAAAAAAAAAAAA" then 0
      else if jsEqStr params.p1 "159938AAAAAAAAAAAAAAAAAAAAAAAAAAAAAA" then 0
      else if jsEqStr params.p1 "162181AAAAAAAAAAAAAAAAAAAAAAAAAAAAAA" then 0
      else if jsEqStr params.p1 "5622AAAAAAAAAAAAAAAAAAAAAAAAAAAAAAAA" then 0
      else if jsEqStr params.p1 "162223AAAAAAAAAAAAAAAAAAAAAAAAAAAAAA" then 0
      else if jsEqStr params.p1 "160541AAAAAAAAAAAAAAAAAAAAAAAAAAAAAA" then 1
      else 0 := by
  simp only [predictionVariables, tbScreeningUpdate_eq, selfTestUpdate_eq, strategyUpdate_eq,
    entryPointUpdate_eq, testedAsUpdate_eq, everTestedUpdate_eq, disabilityUpdate_eq,
    populationTypeUpdate_eq, minorUpdate_eq, maritalStatusUpdate_eq, initVector]

theorem predictionVariables_EntryPointCCC (params : RawInput) :
    (predictionVariables params).EntryPointCCC =
      0 := by
  simp only [predictionVariables, tbScreeningUpdate_eq, selfTestUpdate_eq, strategyUpdate_eq,
    entryPointUpdate_eq, testedAsUpdate_eq, everTestedUpdate_eq, disabilityUpdate_eq,
    populationTypeUpdate_eq, minorUpdate_eq, maritalStatusUpdate_eq, initVector]

theorem predictionVariables_EntryPointPNS (params : RawInput) :
    (predictionVariables params).EntryPointPNS =
      0 := by
  simp only [predictionVariables, tbScreeningUpdate_eq, selfTestUpdate_eq, strategyUpdate_eq,
    entryPointUpdate_eq, testedAsUpdate_eq, everTestedUpdate_eq, disabilityUpdate_eq,
    populationTypeUpdate_eq, minorUpdate_eq, maritalStatusUpdate_eq, initVector]

theorem predictionVariables_TestingStrategyVCT (params : RawInput) :
    (predictionVariables params).TestingStrategyVCT =
      if jsEqStr params.p10 "159938AAAAAAAAAAAAAAAAAAAAAAAAAAAAAA" then 0
      else if jsEqStr params.p10 "159939AAAAAAAAAAAAAAAAAAAAAAAAAAAAAA" then 0
      else if jsEqStr params.p10 "164163AAAAAAAAAAAAAAAAAAAAAAAAAAAAAA" then 0
      else if jsEqStr params.p10 "164953AAAAAAAAAAAAAAAAAAAAAAAAAAAAAA" then 0
      else if (jsEqStr params.p10 "164954AAAAAAAAAAAAAAAAAAAAAAAAAAAAAA" || jsEqStr params.p10 "164955AAAAAAAAAAAAAAAAAAAAAAAAAAAAAA") then 1
      else 0 := by
  simp only [predictionVariables, tbScreeningUpdate_eq, selfTestUpdate_eq, strategyUpdate_eq,
    entryPointUpdate_eq, testedAsUpdate_eq, everTestedUpdate_eq, disabilityUpdate_eq,
    populationTypeUpdate_eq, minorUpdate_eq, maritalStatusUpdate_eq, initVector]

theorem predictionVariables_TestingStrategyHB (params : RawInput) :
    (predictionVariables params).TestingStrategyHB =
      if jsEqStr params.p10 "159938AAAAAAAAAAAAAAAAAAAAAAAAAAAAAA" then 1
      else 0 := by
  simp only [predictionVariables, tbScreeningUpdate_eq, selfTestUpdate_eq, strategyUpdate_eq,
    entryPointUpdate_eq, testedAsUpdate_eq, everTestedUpdate_eq, disabilityUpdate_eq,
    populationTypeUpdate_eq, minorUpdate_eq, maritalStatusUpdate_eq, initVector]

theorem predictionVariables_TestingStrategyMOBILE (params : RawInput) :
    (predictionVariables params).TestingStrategyMOBILE =
      if jsEqStr params.p10 "159938AAAAAAAAAAAAAAAAAAAAAAAAAAAAAA" then 0
      else if jsEqStr params.p10 "159939AAAAAAAAAAAAAAAAAAAAAAAAAAAAAA" then 1
      else 0 := by
  simp only [predictionVariables, tbScreeningUpdate_eq, selfTestUpdate_eq, strategyUpdate_eq,
    entryPointUpdate_eq, testedAsUpdate_eq, everTestedUpdate_eq, disabilityUpdate_eq,
    populationTypeUpdate_eq, minorUpdate_eq, maritalStatusUpdate_eq, initVector]

theorem predictionVariables_TestingStrategyHP (params : RawInput) :
    (predictionVariables params).TestingStrategyHP =
      if jsEqStr params.p10 "159938AAAAAAAAAAAAAAAAAAAAAAAAAAAAAA" then 0
      else if jsEqStr params.p10 "159939AAAAAAAAAAAAAAAAAAAAAAAAAAAAAA" then 0
      else if jsEqStr params.p10 "164163AAAAAAAAAAAAAAAAAAAAAAAAAAAAAA" then 1
      else 0 := by
  simp only [predictionVariables, tbScreeningUpdate_eq, selfTestUpdate_eq, strategyUpdate_eq,
    entryPointUpdate_eq, testedAsUpdate_eq, everTestedUpdate_eq, disabilityUpdate_eq,
    populationTypeUpdate_eq, minorUpdate_eq, maritalStatusUpdate_eq, initVector]

theorem predictionVariables_TestingStrategyNP (params : RawInput) :
    (predictionVariables params).TestingStrategyNP =
      if jsEqStr params.p10 "159938AAAAAAAAAAAAAAAAAAAAAAAAAAAAAA" then 0
      else if jsEqStr params.p10 "159939AAAAAAAAAAAAAAAAAAAAAAAAAAAAAA" then 0
      else if jsEqStr params.p10 "164163AAAAAAAAAAAAAAAAAAAAAAAAAAAAAA" then 0
      else if jsEqStr params.p10 "164953AAAAAAAAAAAAAAAAAAAAAAAAAAAAAA" then 1
      else 0 := by
  simp only [predictionVariables, tbScreeningUpdate_eq, selfTestUpdate_eq, strategyUpdate_eq,
    entryPointUpdate_eq, testedAsUpdate_eq, everTestedUpdate_eq, disabilityUpdate_eq,
    populationTypeUpdate_eq, minorUpdate_eq, maritalStatusUpdate_eq, initVector]

theorem predictionVariables_TBScreeningNoPresumedTB (params : RawInput) :
    (predictionVariables params).TBScreeningNoPresumedTB =
      if (jsEqStr params.p9 "1660AAAAAAAAAAAAAAAAAAAAAAAAAAAAAAAA" || jsEqStr params.p9 "160737AAAAAAAAAAAAAAAAAAAAAAAAAAAAAA") then 1
      else 0 := by
  simp only [predictionVariables, tbScreeningUpdate_eq, selfTestUpdate_eq, strategyUpdate_eq,
    entryPointUpdate_eq, testedAsUpdate_eq, everTestedUpdate_eq, disabilityUpdate_eq,
    populationTypeUpdate_eq, minorUpdate_eq, maritalStatusUpdate_eq, initVector]

theorem predictionVariables_TBScreeningPresumedTB (params : RawInput) :
    (predictionVariables params).TBScreeningPresumedTB =
      if (jsEqStr params.p9 "1660AAAAAAAAAAAAAAAAAAAAAAAAAAAAAAAA" || jsEqStr params.p9 "160737AAAAAAAAAAAAAAAAAAAAAAAAAAAAAA") then 0
      else if (jsEqStr params.p9 "142177AAAAAAAAAAAAAAAAAAAAAAAAAAAAAA" || jsEqStr params.p9 "1111AAAAAAAAAAAAAAAAAAAAAAAAAAAAAAAA") then 1
      else 0 := by
  simp only [predictionVariables, tbScreeningUpdate_eq, selfTestUpdate_eq, strategyUpdate_eq,
    entryPointUpdate_eq, testedAsUpdate_eq, everTestedUpdate_eq, disabilityUpdate_eq,
    populationTypeUpdate_eq, minorUpdate_eq, maritalStatusUpdate_eq, initVector]

theorem predictionVariables_ClientSelfTestedNo (params : RawInput) :
    (predictionVariables params).ClientSelfTestedNo =
      if jsEqStr params.p8 "1066AAAAAAAAAAAAAAAAAAAAAAAAAAAAAAAA" then 1
      else 0 := by
  simp only [predictionVariables, tbScreeningUpdate_eq, selfTestUpdate_eq, strategyUpdate_eq,
    entryPointUpdate_eq, testedAsUpdate_eq, everTestedUpdate_eq, disabilityUpdate_eq,
    populationTypeUpdate_eq, minorUpdate_eq, maritalStatusUpdate_eq, initVector]

theorem predictionVariables_ClientSelfTestedYes (params : RawInput) :
    (predictionVariables params).ClientSelfTestedYes =
      if jsEqStr params.p8 "1066AAAAAAAAAAAAAAAAAAAAAAAAAAAAAAAA" then 0
      else if jsEqStr params.p8 "1065AAAAAAAAAAAAAAAAAAAAAAAAAAAAAAAA" then 1
      else 0 := by
  simp only [predictionVariables, tbScreeningUpdate_eq, selfTestUpdate_eq, strategyUpdate_eq,
    entryPointUpdate_eq, testedAsUpdate_eq, everTestedUpdate_eq, disabilityUpdate_eq,
    populationTypeUpdate_eq, minorUpdate_eq, maritalStatusUpdate_eq, initVector]

/-! Shared facts used by the claim theorems below. -/

/-- The three risk thresholds are strictly ordered: low < medium < high. -/
theorem threshold_order :
    lowRiskThreshold < mediumRiskThreshold ∧ mediumRiskThreshold < highRiskThreshold := by
  norm_num [lowRiskThreshold, mediumRiskThreshold, highRiskThreshold]

/-- A value that loosely equals the string `s` cannot also loosely equal a
different string `t` whose `ToNumber` conversion is NaN: concept codes are
mutually exclusive under the encoder's comparisons. -/
theorem jsEqStr_exclusive (v : JSValue) (s t : String) (hst : s ≠ t)
    (ht : toNumber t = none) (h : jsEqStr v s = true) : jsEqStr v t = false := by
  cases v with
  | num q => simp [jsEqStr, ht]
  | str u =>
    simp only [jsEqStr, decide_eq_true_eq] at h
    subst h
    simp [jsEqStr, hst]

/-! One mutually-exclusive indicator group at a time: every field of the
group is 0 or 1, and the group sums to 1 exactly when some rule of the group
matched, so at most one indicator is set by a matching rule and an
unrecognized code leaves the whole group at 0. -/

theorem genderGroupSpec (params : RawInput) :
    ((predictionVariables params).GenderMale = 0 ∨ (predictionVariables params).GenderMale = 1) ∧
    ((predictionVariables params).GenderFemale = 0 ∨ (predictionVariables params).GenderFemale = 1) ∧
    (predictionVariables params).GenderMale + (predictionVariables params).GenderFemale =
      (if jsEqStr params.p3 "M" || jsEqStr params.p3 "F" then 1 else 0) := by
  simp only [predictionVariables_GenderMale, predictionVariables_GenderFemale]
  cases hp : params.p3 with
  | num q =>
    have e1 : jsEqStr (JSValue.num q) "M" = false := rfl
    have e2 : jsEqStr (JSValue.num q) "F" = false := rfl
    simp only [e1, e2]
    norm_num
  | str s =>
    by_cases h1 : s = "M"
    · subst h1
      have g1 : jsEqStr (JSValue.str "M") "M" = true := by decide
      have g2 : jsEqStr (JSValue.str "M") "F" = false := by decide
      simp only [g1, g2]
      norm_num
    · 
      by_cases h2 : s = "F"
      · subst h2
        have g1 : jsEqStr (JSValue.str "F") "M" = false := by decide
        have g2 : jsEqStr (JSValue.str "F") "F" = true := by decide
        simp only [g1, g2]
        norm_num
      · have e1 : jsEqStr (JSValue.str s) "M" = false := by simp [jsEqStr, h1]
        have e2 : jsEqStr (JSValue.str s) "F" = false := by simp [jsEqStr, h2]
        simp only [e1, e2]
        norm_num

theorem maritalStatusGroupSpec (params : RawInput) :
    ((predictionVariables params).MaritalStatusMarried = 0 ∨ (predictionVariables params).MaritalStatusMarried = 1) ∧
    ((predictionVariables params).MaritalStatusPolygamous = 0 ∨ (predictionVariables params).MaritalStatusPolygamous = 1) ∧
    ((predictionVariables params).MaritalStatusDivorced = 0 ∨ (predictionVariables params).MaritalStatusDivorced = 1) ∧
    ((predictionVariables params).MaritalStatusWidowed = 0 ∨ (predictionVariables params).MaritalStatusWidowed = 1) ∧
    ((predictionVariables params).MaritalStatusSingle = 0 ∨ (predictionVariables params).MaritalStatusSingle = 1) ∧
    (predictionVariables params).MaritalStatusMarried + (predictionVariables params).MaritalStatusPolygamous + (predictionVariables params).MaritalStatusDivorced + (predictionVariables params).MaritalStatusWidowed + (predictionVariables params).MaritalStatusSingle =
      (if jsEqStr params.p5 "5555AAAAAAAAAAAAAAAAAAAAAAAAAAAAAAAA" || jsEqStr params.p5 "159715AAAAAAAAAAAAAAAAAAAAAAAAAAAAAA" || jsEqStr params.p5 "1058AAAAAAAAAAAAAAAAAAAAAAAAAAAAAAAA" || jsEqStr params.p5 "1059AAAAAAAAAAAAAAAAAAAAAAAAAAAAAAAA" || jsEqStr params.p5 "1057AAAAAAAAAAAAAAAAAAAAAAAAAAAAAAAA" then 1 else 0) := by
  simp only [predictionVariables_MaritalStatusMarried, predictionVariables_MaritalStatusPolygamous, predictionVariables_MaritalStatusDivorced, predictionVariables_MaritalStatusWidowed, predictionVariables_MaritalStatusSingle]
  cases hp : params.p5 with
  | num q =>
    have e1 : jsEqStr (JSValue.num q) "5555AAAAAAAAAAAAAAAAAAAAAAAAAAAAAAAA" = false := rfl
    have e2 : jsEqStr (JSValue.num q) "159715AAAAAAAAAAAAAAAAAAAAAAAAAAAAAA" = false := rfl
    have e3 : jsEqStr (JSValue.num q) "1058AAAAAAAAAAAAAAAAAAAAAAAAAAAAAAAA" = false := rfl
    have e4 : jsEqStr (JSValue.num q) "1059AAAAAAAAAAAAAAAAAAAAAAAAAAAAAAAA" = false := rfl
    have e5 : jsEqStr (JSValue.num q) "1057AAAAAAAAAAAAAAAAAAAAAAAAAAAAAAAA" = false := rfl
    simp only [e1, e2, e3, e4, e5]
    norm_num
  | str s =>
    by_cases h1 : s = "5555AAAAAAAAAAAAAAAAAAAAAAAAAAAAAAAA"
    · subst h1
      have g1 : jsEqStr (JSValue.str "5555AAAAAAAAAAAAAAAAAAAAAAAAAAAAAAAA") "5555AAAAAAAAAAAAAAAAAAAAAAAAAAAAAAAA" = true := by decide
      have g2 : jsEqStr (JSValue.str "5555AAAAAAAAAAAAAAAAAAAAAAAAAAAAAAAA") "159715AAAAAAAAAAAAAAAAAAAAAAAAAAAAAA" = false := by decide
      have g3 : jsEqStr (JSValue.str "5555AAAAAAAAAAAAAAAAAAAAAAAAAAAAAAAA") "1058AAAAAAAAAAAAAAAAAAAAAAAAAAAAAAAA" = false := by decide
      have g4 : jsEqStr (JSValue.str "5555AAAAAAAAAAAAAAAAAAAAAAAAAAAAAAAA") "1059AAAAAAAAAAAAAAAAAAAAAAAAAAAAAAAA" = false := by decide
      have g5 : jsEqStr (JSValue.str "5555AAAAAAAAAAAAAAAAAAAAAAAAAAAAAAAA") "1057AAAAAAAAAAAAAAAAAAAAAAAAAAAAAAAA" = false := by decide
      simp only [g1, g2, g3, g4, g5]
      norm_num
    · 
      by_cases h2 : s = "159715AAAAAAAAAAAAAAAAAAAAAAAAAAAAAA"
      · subst h2
        have g1 : jsEqStr (JSValue.str "159715AAAAAAAAAAAAAAAAAAAAAAAAAAAAAA") "5555AAAAAAAAAAAAAAAAAAAAAAAAAAAAAAAA" = false := by decide
        have g2 : jsEqStr (JSValue.str "159715AAAAAAAAAAAAAAAAAAAAAAAAAAAAAA") "159715AAAAAAAAAAAAAAAAAAAAAAAAAAAAAA" = true := by decide
        have g3 : jsEqStr (JSValue.str "159715AAAAAAAAAAAAAAAAAAAAAAAAAAAAAA") "1058AAAAAAAAAAAAAAAAAAAAAAAAAAAAAAAA" = false := by decide
        have g4 : jsEqStr (JSValue.str "159715AAAAAAAAAAAAAAAAAAAAAAAAAAAAAA") "1059AAAAAAAAAAAAAAAAAAAAAAAAAAAAAAAA" = false := by decide
        have g5 : jsEqStr (JSValue.str "159715AAAAAAAAAAAAAAAAAAAAAAAAAAAAAA") "1057AAAAAAAAAAAAAAAAAAAAAAAAAAAAAAAA" = false := by decide
        simp only [g1, g2, g3, g4, g5]
        norm_num
      · 
        by_cases h3 : s = "1058AAAAAAAAAAAAAAAAAAAAAAAAAAAAAAAA"
        · subst h3
          have g1 : jsEqStr (JSValue.str "1058AAAAAAAAAAAAAAAAAAAAAAAAAAAAAAAA") "5555AAAAAAAAAAAAAAAAAAAAAAAAAAAAAAAA" = false := by decide
          have g2 : jsEqStr (JSValue.str "1058AAAAAAAAAAAAAAAAAAAAAAAAAAAAAAAA") "159715AAAAAAAAAAAAAAAAAAAAAAAAAAAAAA" = false := by decide
          have g3 : jsEqStr (JSValue.str "1058AAAAAAAAAAAAAAAAAAAAAAAAAAAAAAAA") "1058AAAAAAAAAAAAAAAAAAAAAAAAAAAAAAAA" = true := by decide
          have g4 : jsEqStr (JSValue.str "1058AAAAAAAAAAAAAAAAAAAAAAAAAAAAAAAA") "1059AAAAAAAAAAAAAAAAAAAAAAAAAAAAAAAA" = false := by decide
          have g5 : jsEqStr (JSValue.str "1058AAAAAAAAAAAAAAAAAAAAAAAAAAAAAAAA") "1057AAAAAAAAAAAAAAAAAAAAAAAAAAAAAAAA" = false := by decide
          simp only [g1, g2, g3, g4, g5]
          norm_num
        · 
          by_cases h4 : s = "1059AAAAAAAAAAAAAAAAAAAAAAAAAAAAAAAA"
          · subst h4
            have g1 : jsEqStr (JSValue.str "1059AAAAAAAAAAAAAAAAAAAAAAAAAAAAAAAA") "5555AAAAAAAAAAAAAAAAAAAAAAAAAAAAAAAA" = false := by decide
            have g2 : jsEqStr (JSValue.str "1059AAAAAAAAAAAAAAAAAAAAAAAAAAAAAAAA") "159715AAAAAAAAAAAAAAAAAAAAAAAAAAAAAA" = false := by decide
            have g3 : jsEqStr (JSValue.str "1059AAAAAAAAAAAAAAAAAAAAAAAAAAAAAAAA") "1058AAAAAAAAAAAAAAAAAAAAAAAAAAAAAAAA" = false := by decide
            have g4 : jsEqStr (JSValue.str "1059AAAAAAAAAAAAAAAAAAAAAAAAAAAAAAAA") "1059AAAAAAAAAAAAAAAAAAAAAAAAAAAAAAAA" = true := by decide
            have g5 : jsEqStr (JSValue.str "1059AAAAAAAAAAAAAAAAAAAAAAAAAAAAAAAA") "1057AAAAAAAAAAAAAAAAAAAAAAAAAAAAAAAA" = false := by decide
            simp only [g1, g2, g3, g4, g5]
            norm_num
          · 
            by_cases h5 : s = "1057AAAAAAAAAAAAAAAAAAAAAAAAAAAAAAAA"
            · subst h5
              have g1 : jsEqStr (JSValue.str "1057AAAAAAAAAAAAAAAAAAAAAAAAAAAAAAAA") "5555AAAAAAAAAAAAAAAAAAAAAAAAAAAAAAAA" = false := by decide
              have g2 : jsEqStr (JSValue.str "1057AAAAAAAAAAAAAAAAAAAAAAAAAAAAAAAA") "159715AAAAAAAAAAAAAAAAAAAAAAAAAAAAAA" = false := by decide
              have g3 : jsEqStr (JSValue.str "1057AAAAAAAAAAAAAAAAAAAAAAAAAAAAAAAA") "1058AAAAAAAAAAAAAAAAAAAAAAAAAAAAAAAA" = false := by decide
              have g4 : jsEqStr (JSValue.str "1057AAAAAAAAAAAAAAAAAAAAAAAAAAAAAAAA") "1059AAAAAAAAAAAAAAAAAAAAAAAAAAAAAAAA" = false := by decide
              have g5 : jsEqStr (JSValue.str "1057AAAAAAAAAAAAAAAAAAAAAAAAAAAAAAAA") "1057AAAAAAAAAAAAAAAAAAAAAAAAAAAAAAAA" = true := by decide
              simp only [g1, g2, g3, g4, g5]
              norm_num
            · have e1 : jsEqStr (JSValue.str s) "5555AAAAAAAAAAAAAAAAAAAAAAAAAAAAAAAA" = false := by simp [jsEqStr, h1]
              have e2 : jsEqStr (JSValue.str s) "159715AAAAAAAAAAAAAAAAAAAAAAAAAAAAAA" = false := by simp [jsEqStr, h2]
              have e3 : jsEqStr (JSValue.str s) "1058AAAAAAAAAAAAAAAAAAAAAAAAAAAAAAAA" = false := by simp [jsEqStr, h3]
              have e4 : jsEqStr (JSValue.str s) "1059AAAAAAAAAAAAAAAAAAAAAAAAAAAAAAAA" = false := by simp [jsEqStr, h4]
              have e5 : jsEqStr (JSValue.str s) "1057AAAAAAAAAAAAAAAAAAAAAAAAAAAAAAAA" = false := by simp [jsEqStr, h5]
              simp only [e1, e2, e3, e4, e5]
              norm_num

theorem populationTypeGroupSpec (params : RawInput) :
    ((predictionVariables params).KeyPopulationTypeGP = 0 ∨ (predictionVariables params).KeyPopulationTypeGP = 1) ∧
    ((predictionVariables params).KeyPopulationTypeSW = 0 ∨ (predictionVariables params).KeyPopulationTypeSW = 1) ∧
    (predictionVariables params).KeyPopulationTypeGP + (predictionVariables params).KeyPopulationTypeSW =
      (if jsEqStr params.p7 "164928AAAAAAAAAAAAAAAAAAAAAAAAAAAAAA" || jsEqStr params.p7 "164929AAAAAAAAAAAAAAAAAAAAAAAAAAAAAA" then 1 else 0) := by
  simp only [predictionVariables_KeyPopulationTypeGP, predictionVariables_KeyPopulationTypeSW]
  cases hp : params.p7 with
  | num q =>
    have e1 : jsEqStr (JSValue.num q) "164928AAAAAAAAAAAAAAAAAAAAAAAAAAAAAA" = false := rfl
    have e2 : jsEqStr (JSValue.num q) "164929AAAAAAAAAAAAAAAAAAAAAAAAAAAAAA" = false := rfl
    simp only [e1, e2]
    norm_num
  | str s =>
    by_cases h1 : s = "164928AAAAAAAAAAAAAAAAAAAAAAAAAAAAAA"
    · subst h1
      have g1 : jsEqStr (JSValue.str "164928AAAAAAAAAAAAAAAAAAAAAAAAAAAAAA") "164928AAAAAAAAAAAAAAAAAAAAAAAAAAAAAA" = true := by decide
      have g2 : jsEqStr (JSValue.str "164928AAAAAAAAAAAAAAAAAAAAAAAAAAAAAA") "164929AAAAAAAAAAAAAAAAAAAAAAAAAAAAAA" = false := by decide
      simp only [g1, g2]
      norm_num
    · 
      by_cases h2 : s = "164929AAAAAAAAAAAAAAAAAAAAAAAAAAAAAA"
      · subst h2
        have g1 : jsEqStr (JSValue.str "164929AAAAAAAAAAAAAAAAAAAAAAAAAAAAAA") "164928AAAAAAAAAAAAAAAAAAAAAAAAAAAAAA" = false := by decide
        have g2 : jsEqStr (JSValue.str "164929AAAAAAAAAAAAAAAAAAAAAAAAAAAAAA") "164929AAAAAAAAAAAAAAAAAAAAAAAAAAAAAA" = true := by decide
        simp only [g1, g2]
        norm_num
      · have e1 : jsEqStr (JSValue.str s) "164928AAAAAAAAAAAAAAAAAAAAAAAAAAAAAA" = false := by simp [jsEqStr, h1]
        have e2 : jsEqStr (JSValue.str s) "164929AAAAAAAAAAAAAAAAAAAAAAAAAAAAAA" = false := by simp [jsEqStr, h2]
        simp only [e1, e2]
        norm_num

theorem disabilityGroupSpec (params : RawInput) :
    ((predictionVariables params).PatientDisabledNo = 0 ∨ (predictionVariables params).PatientDisabledNo = 1) ∧
    ((predictionVariables params).PatientDisabledDisabled = 0 ∨ (predictionVariables params).PatientDisabledDisabled = 1) ∧
    (predictionVariables params).PatientDisabledNo + (predictionVariables params).PatientDisabledDisabled =
      (if jsEqStr params.p4 "1066AAAAAAAAAAAAAAAAAAAAAAAAAAAAAAAA" || jsEqStr params.p4 "1065AAAAAAAAAAAAAAAAAAAAAAAAAAAAAAAA" then 1 else 0) := by
  simp only [predictionVariables_PatientDisabledNo, predictionVariables_PatientDisabledDisabled]
  cases hp : params.p4 with
  | num q =>
    have e1 : jsEqStr (JSValue.num q) "1066AAAAAAAAAAAAAAAAAAAAAAAAAAAAAAAA" = false := rfl
    have e2 : jsEqStr (JSValue.num q) "1065AAAAAAAAAAAAAAAAAAAAAAAAAAAAAAAA" = false := rfl
    simp only [e1, e2]
    norm_num
  | str s =>
    by_cases h1 : s = "1066AAAAAAAAAAAAAAAAAAAAAAAAAAAAAAAA"
    · subst h1
      have g1 : jsEqStr (JSValue.str "1066AAAAAAAAAAAAAAAAAAAAAAAAAAAAAAAA") "1066AAAAAAAAAAAAAAAAAAAAAAAAAAAAAAAA" = true := by decide
      have g2 : jsEqStr (JSValue.str "1066AAAAAAAAAAAAAAAAAAAAAAAAAAAAAAAA") "1065AAAAAAAAAAAAAAAAAAAAAAAAAAAAAAAA" = false := by decide
      simp only [g1, g2]
      norm_num
    · 
      by_cases h2 : s = "1065AAAAAAAAAAAAAAAAAAAAAAAAAAAAAAAA"
      · subst h2
        have g1 : jsEqStr (JSValue.str "1065AAAAAAAAAAAAAAAAAAAAAAAAAAAAAAAA") "1066AAAAAAAAAAAAAAAAAAAAAAAAAAAAAAAA" = false := by decide
        have g2 : jsEqStr (JSValue.str "1065AAAAAAAAAAAAAAAAAAAAAAAAAAAAAAAA") "1065AAAAAAAAAAAAAAAAAAAAAAAAAAAAAAAA" = true := by decide
        simp only [g1, g2]
        norm_num
      · have e1 : jsEqStr (JSValue.str s) "1066AAAAAAAAAAAAAAAAAAAAAAAAAAAAAAAA" = false := by simp [jsEqStr, h1]
        have e2 : jsEqStr (JSValue.str s) "1065AAAAAAAAAAAAAAAAAAAAAAAAAAAAAAAA" = false := by simp [jsEqStr, h2]
        simp only [e1, e2]
        norm_num

theorem everTestedGroupSpec (params : RawInput) :
    ((predictionVariables params).EverTestedForHIVYes = 0 ∨ (predictionVariables params).EverTestedForHIVYes = 1) ∧
    ((predictionVariables params).EverTestedForHivNo = 0 ∨ (predictionVariables params).EverTestedForHivNo = 1) ∧
    (predictionVariables params).EverTestedForHIVYes + (predictionVariables params).EverTestedForHivNo =
      (if jsEqStr params.p2 "1065AAAAAAAAAAAAAAAAAAAAAAAAAAAAAAAA" || jsEqStr params.p2 "1066AAAAAAAAAAAAAAAAAAAAAAAAAAAAAAAA" then 1 else 0) := by
  simp only [predictionVariables_EverTestedForHIVYes, predictionVariables_EverTestedForHivNo]
  cases hp : params.p2 with
  | num q =>
    have e1 : jsEqStr (JSValue.num q) "1065AAAAAAAAAAAAAAAAAAAAAAAAAAAAAAAA" = false := rfl
    have e2 : jsEqStr (JSValue.num q) "1066AAAAAAAAAAAAAAAAAAAAAAAAAAAAAAAA" = false := rfl
    simp only [e1, e2]
    norm_num
  | str s =>
    by_cases h1 : s = "1065AAAAAAAAAAAAAAAAAAAAAAAAAAAAAAAA"
    · subst h1
      have g1 : jsEqStr (JSValue.str "1065AAAAAAAAAAAAAAAAAAAAAAAAAAAAAAAA") "1065AAAAAAAAAAAAAAAAAAAAAAAAAAAAAAAA" = true := by decide
      have g2 : jsEqStr (JSValue.str "1065AAAAAAAAAAAAAAAAAAAAAAAAAAAAAAAA") "1066AAAAAAAAAAAAAAAAAAAAAAAAAAAAAAAA" = false := by decide
      simp only [g1, g2]
      norm_num
    · 
      by_cases h2 : s = "1066AAAAAAAAAAAAAAAAAAAAAAAAAAAAAAAA"
      · subst h2
        have g1 : jsEqStr (JSValue.str "1066AAAAAAAAAAAAAAAAAAAAAAAAAAAAAAAA") "1065AAAAAAAAAAAAAAAAAAAAAAAAAAAAAAAA" = false := by decide
        have g2 : jsEqStr (JSValue.str "1066AAAAAAAAAAAAAAAAAAAAAAAAAAAAAAAA") "1066AAAAAAAAAAAAAAAAAAAAAAAAAAAAAAAA" = true := by decide
        simp only [g1, g2]
        norm_num
      · have e1 : jsEqStr (JSValue.str s) "1065AAAAAAAAAAAAAAAAAAAAAAAAAAAAAAAA" = false := by simp [jsEqStr, h1]
        have e2 : jsEqStr (JSValue.str s) "1066AAAAAAAAAAAAAAAAAAAAAAAAAAAAAAAA" = false := by simp [jsEqStr, h2]
        simp only [e1, e2]
        norm_num

theorem testedAsGroupSpec (params : RawInput) :
    ((predictionVariables params).ClientTestedAsIndividual = 0 ∨ (predictionVariables params).ClientTestedAsIndividual = 1) ∧
    ((predictionVariables params).ClientTestedAsCouple = 0 ∨ (predictionVariables params).ClientTestedAsCouple = 1) ∧
    (predictionVariables params).ClientTestedAsIndividual + (predictionVariables params).ClientTestedAsCouple =
      (if jsEqStr params.p2 "164957AAAAAAAAAAAAAAAAAAAAAAAAAAAAAA" || jsEqStr params.p2 "164958AAAAAAAAAAAAAAAAAAAAAAAAAAAAAA" then 1 else 0) := by
  simp only [predictionVariables_ClientTestedAsIndividual, predictionVariables_ClientTestedAsCouple]
  cases hp : params.p2 with
  | num q =>
    have e1 : jsEqStr (JSValue.num q) "164957AAAAAAAAAAAAAAAAAAAAAAAAAAAAAA" = false := rfl
    have e2 : jsEqStr (JSValue.num q) "164958AAAAAAAAAAAAAAAAAAAAAAAAAAAAAA" = false := rfl
    simp only [e1, e2]
    norm_num
  | str s =>
    by_cases h1 : s = "164957AAAAAAAAAAAAAAAAAAAAAAAAAAAAAA"
    · subst h1
      have g1 : jsEqStr (JSValue.str "164957AAAAAAAAAAAAAAAAAAAAAAAAAAAAAA") "164957AAAAAAAAAAAAAAAAAAAAAAAAAAAAAA" = true := by decide
      have g2 : jsEqStr (JSValue.str "164957AAAAAAAAAAAAAAAAAAAAAAAAAAAAAA") "164958AAAAAAAAAAAAAAAAAAAAAAAAAAAAAA" = false := by decide
      simp only [g1, g2]
      norm_num
    · 
      by_cases h2 : s = "164958AAAAAAAAAAAAAAAAAAAAAAAAAAAAAA"
      · subst h2
        have g1 : jsEqStr (JSValue.str "164958AAAAAAAAAAAAAAAAAAAAAAAAAAAAAA") "164957AAAAAAAAAAAAAAAAAAAAAAAAAAAAAA" = false := by decide
        have g2 : jsEqStr (JSValue.str "164958AAAAAAAAAAAAAAAAAAAAAAAAAAAAAA") "164958AAAAAAAAAAAAAAAAAAAAAAAAAAAAAA" = true := by decide
        simp only [g1, g2]
        norm_num
      · have e1 : jsEqStr (JSValue.str s) "164957AAAAAAAAAAAAAAAAAAAAAAAAAAAAAA" = false := by simp [jsEqStr, h1]
        have e2 : jsEqStr (JSValue.str s) "164958AAAAAAAAAAAAAAAAAAAAAAAAAAAAAA" = false := by simp [jsEqStr, h2]
        simp only [e1, e2]
        norm_num

theorem entryPointGroupSpec (params : RawInput) :
    ((predictionVariables params).EntryPointVCT = 0 ∨ (predictionVariables params).EntryPointVCT = 1) ∧
    ((predictionVariables params).EntryPointOPD = 0 ∨ (predictionVariables params).EntryPointOPD = 1) ∧
    ((predictionVariables params).EntryPointMTC = 0 ∨ (predictionVariables params).EntryPointMTC = 1) ∧
    ((predictionVariables params).EntryPointIPD = 0 ∨ (predictionVariables params).EntryPointIPD = 1) ∧
    ((predictionVariables params).EntryPointMOBILE = 0 ∨ (predictionVariables params).EntryPointMOBILE = 1) ∧
    ((predictionVariables params).EntryPointHB = 0 ∨ (predictionVariables params).EntryPointHB = 1) ∧
    ((predictionVariables params).EntryPointPEDS = 0 ∨ (predictionVariables params).EntryPointPEDS = 1) ∧
    ((predictionVariables params).EntryPointOther = 0 ∨ (predictionVariables params).EntryPointOther = 1) ∧
    ((predictionVariables params).EntryPointVMMC = 0 ∨ (predictionVariables params).EntryPointVMMC = 1) ∧
    ((predictionVariables params).EntryPointTB = 0 ∨ (predictionVariables params).EntryPointTB = 1) ∧
    ((predictionVariables params).EntryPointCCC = 0 ∨ (predictionVariables params).EntryPointCCC = 1) ∧
    ((predictionVariables params).EntryPointPNS = 0 ∨ (predictionVariables params).EntryPointPNS = 1) ∧
    (predictionVariables params).EntryPointVCT + (predictionVariables params).EntryPointOPD + (predictionVariables params).EntryPointMTC + (predictionVariables params).EntryPointIPD + (predictionVariables params).EntryPointMOBILE + (predictionVariables params).EntryPointHB + (predictionVariables params).EntryPointPEDS + (predictionVariables params).EntryPointOther + (predictionVariables params).EntryPointVMMC + (predictionVariables params).EntryPointTB + (predictionVariables params).EntryPointCCC + (predictionVariables params).EntryPointPNS =
      (if jsEqNum params.p1 159940 || jsEqStr params.p1 "160542AAAAAAAAAAAAAAAAAAAAAAAAAAAAAA" || jsEqStr params.p1 "160456AAAAAAAAAAAAAAAAAAAAAAAAAAAAAA" || jsEqStr params.p1 "5485AAAAAAAAAAAAAAAAAAAAAAAAAAAAAAAA" || jsEqStr params.p1 "159939AAAAAAAAAAAAAAAAAAAAAAAAAAAAAA" || jsEqStr params.p1 "159938AAAAAAAAAAAAAAAAAAAAAAAAAAAAAA" || jsEqStr params.p1 "162181AAAAAAAAAAAAAAAAAAAAAAAAAAAAAA" || jsEqStr params.p1 "5622AAAAAAAAAAAAAAAAAAAAAAAAAAAAAAAA" || jsEqStr params.p1 "162223AAAAAAAAAAAAAAAAAAAAAAAAAAAAAA" || jsEqStr params.p1 "160541AAAAAAAAAAAAAAAAAAAAAAAAAAAAAA" then 1 else 0) := by
  simp only [predictionVariables_EntryPointVCT, predictionVariables_EntryPointOPD, predictionVariables_EntryPointMTC, predictionVariables_EntryPointIPD, predictionVariables_EntryPointMOBILE, predictionVariables_EntryPointHB, predictionVariables_EntryPointPEDS, predictionVariables_EntryPointOther, predictionVariables_EntryPointVMMC, predictionVariables_EntryPointTB, predictionVariables_EntryPointCCC, predictionVariables_EntryPointPNS]
  cases hp : params.p1 with
  | num q =>
    have e1 : jsEqStr (JSValue.num q) "160542AAAAAAAAAAAAAAAAAAAAAAAAAAAAAA" = false := rfl
    have e2 : jsEqStr (JSValue.num q) "160456AAAAAAAAAAAAAAAAAAAAAAAAAAAAAA" = false := rfl
    have e3 : jsEqStr (JSValue.num q) "5485AAAAAAAAAAAAAAAAAAAAAAAAAAAAAAAA" = false := rfl
    have e4 : jsEqStr (JSValue.num q) "159939AAAAAAAAAAAAAAAAAAAAAAAAAAAAAA" = false := rfl
    have e5 : jsEqStr (JSValue.num q) "159938AAAAAAAAAAAAAAAAAAAAAAAAAAAAAA" = false := rfl
    have e6 : jsEqStr (JSValue.num q) "162181AAAAAAAAAAAAAAAAAAAAAAAAAAAAAA" = false := rfl
    have e7 : jsEqStr (JSValue.num q) "5622AAAAAAAAAAAAAAAAAAAAAAAAAAAAAAAA" = false := rfl
    have e8 : jsEqStr (JSValue.num q) "162223AAAAAAAAAAAAAAAAAAAAAAAAAAAAAA" = false := rfl
    have e9 : jsEqStr (JSValue.num q) "160541AAAAAAAAAAAAAAAAAAAAAAAAAAAAAA" = false := rfl
    simp only [e1, e2, e3, e4, e5, e6, e7, e8, e9]
    cases hq : jsEqNum (JSValue.num q) 159940 <;> simp [hq]
  | str s =>
    by_cases h1 : s = "160542AAAAAAAAAAAAAAAAAAAAAAAAAAAAAA"
    · subst h1
      have g1 : jsEqStr (JSValue.str "160542AAAAAAAAAAAAAAAAAAAAAAAAAAAAAA") "160542AAAAAAAAAAAAAAAAAAAAAAAAAAAAAA" = true := by decide
      have g2 : jsEqStr (JSValue.str "160542AAAAAAAAAAAAAAAAAAAAAAAAAAAAAA") "160456AAAAAAAAAAAAAAAAAAAAAAAAAAAAAA" = false := by decide
      have g3 : jsEqStr (JSValue.str "160542AAAAAAAAAAAAAAAAAAAAAAAAAAAAAA") "5485AAAAAAAAAAAAAAAAAAAAAAAAAAAAAAAA" = false := by decide
      have g4 : jsEqStr (JSValue.str "160542AAAAAAAAAAAAAAAAAAAAAAAAAAAAAA") "159939AAAAAAAAAAAAAAAAAAAAAAAAAAAAAA" = false := by decide
      have g5 : jsEqStr (JSValue.str "160542AAAAAAAAAAAAAAAAAAAAAAAAAAAAAA") "159938AAAAAAAAAAAAAAAAAAAAAAAAAAAAAA" = false := by decide
      have g6 : jsEqStr (JSValue.str "160542AAAAAAAAAAAAAAAAAAAAAAAAAAAAAA") "162181AAAAAAAAAAAAAAAAAAAAAAAAAAAAAA" = false := by decide
      have g7 : jsEqStr (JSValue.str "160542AAAAAAAAAAAAAAAAAAAAAAAAAAAAAA") "5622AAAAAAAAAAAAAAAAAAAAAAAAAAAAAAAA" = false := by decide
      have g8 : jsEqStr (JSValue.str "160542AAAAAAAAAAAAAAAAAAAAAAAAAAAAAA") "162223AAAAAAAAAAAAAAAAAAAAAAAAAAAAAA" = false := by decide
      have g9 : jsEqStr (JSValue.str "160542AAAAAAAAAAAAAAAAAAAAAAAAAAAAAA") "160541AAAAAAAAAAAAAAAAAAAAAAAAAAAAAA" = false := by decide
      have gq : jsEqNum (JSValue.str "160542AAAAAAAAAAAAAAAAAAAAAAAAAAAAAA") 159940 = false := by decide
      simp only [g1, g2, g3, g4, g5, g6, g7, g8, g9, gq]
      norm_num
    · 
      by_cases h2 : s = "160456AAAAAAAAAAAAAAAAAAAAAAAAAAAAAA"
      · subst h2
        have g1 : jsEqStr (JSValue.str "160456AAAAAAAAAAAAAAAAAAAAAAAAAAAAAA") "160542AAAAAAAAAAAAAAAAAAAAAAAAAAAAAA" = false := by decide
        have g2 : jsEqStr (JSValue.str "160456AAAAAAAAAAAAAAAAAAAAAAAAAAAAAA") "160456AAAAAAAAAAAAAAAAAAAAAAAAAAAAAA" = true := by decide
        have g3 : jsEqStr (JSValue.str "160456AAAAAAAAAAAAAAAAAAAAAAAAAAAAAA") "5485AAAAAAAAAAAAAAAAAAAAAAAAAAAAAAAA" = false := by decide
        have g4 : jsEqStr (JSValue.str "160456AAAAAAAAAAAAAAAAAAAAAAAAAAAAAA") "159939AAAAAAAAAAAAAAAAAAAAAAAAAAAAAA" = false := by decide
        have g5 : jsEqStr (JSValue.str "160456AAAAAAAAAAAAAAAAAAAAAAAAAAAAAA") "159938AAAAAAAAAAAAAAAAAAAAAAAAAAAAAA" = false := by decide
        have g6 : jsEqStr (JSValue.str "160456AAAAAAAAAAAAAAAAAAAAAAAAAAAAAA") "162181AAAAAAAAAAAAAAAAAAAAAAAAAAAAAA" = false := by decide
        have g7 : jsEqStr (JSValue.str "160456AAAAAAAAAAAAAAAAAAAAAAAAAAAAAA") "5622AAAAAAAAAAAAAAAAAAAAAAAAAAAAAAAA" = false := by decide
        have g8 : jsEqStr (JSValue.str "160456AAAAAAAAAAAAAAAAAAAAAAAAAAAAAA") "162223AAAAAAAAAAAAAAAAAAAAAAAAAAAAAA" = false := by decide
        have g9 : jsEqStr (JSValue.str "160456AAAAAAAAAAAAAAAAAAAAAAAAAAAAAA") "160541AAAAAAAAAAAAAAAAAAAAAAAAAAAAAA" = false := by decide
        have gq : jsEqNum (JSValue.str "160456AAAAAAAAAAAAAAAAAAAAAAAAAAAAAA") 159940 = false := by decide
        simp only [g1, g2, g3, g4, g5, g6, g7, g8, g9, gq]
        norm_num
      · 
        by_cases h3 : s = "5485AAAAAAAAAAAAAAAAAAAAAAAAAAAAAAAA"
        · subst h3
          have g1 : jsEqStr (JSValue.str "5485AAAAAAAAAAAAAAAAAAAAAAAAAAAAAAAA") "160542AAAAAAAAAAAAAAAAAAAAAAAAAAAAAA" = false := by decide
          have g2 : jsEqStr (JSValue.str "5485AAAAAAAAAAAAAAAAAAAAAAAAAAAAAAAA") "160456AAAAAAAAAAAAAAAAAAAAAAAAAAAAAA" = false := by decide
          have g3 : jsEqStr (JSValue.str "5485AAAAAAAAAAAAAAAAAAAAAAAAAAAAAAAA") "5485AAAAAAAAAAAAAAAAAAAAAAAAAAAAAAAA" = true := by decide
          have g4 : jsEqStr (JSValue.str "5485AAAAAAAAAAAAAAAAAAAAAAAAAAAAAAAA") "159939AAAAAAAAAAAAAAAAAAAAAAAAAAAAAA" = false := by decide
          have g5 : jsEqStr (JSValue.str "5485AAAAAAAAAAAAAAAAAAAAAAAAAAAAAAAA") "159938AAAAAAAAAAAAAAAAAAAAAAAAAAAAAA" = false := by decide
          have g6 : jsEqStr (JSValue.str "5485AAAAAAAAAAAAAAAAAAAAAAAAAAAAAAAA") "162181AAAAAAAAAAAAAAAAAAAAAAAAAAAAAA" = false := by decide
          have g7 : jsEqStr (JSValue.str "5485AAAAAAAAAAAAAAAAAAAAAAAAAAAAAAAA") "5622AAAAAAAAAAAAAAAAAAAAAAAAAAAAAAAA" = false := by decide
          have g8 : jsEqStr (JSValue.str "5485AAAAAAAAAAAAAAAAAAAAAAAAAAAAAAAA") "162223AAAAAAAAAAAAAAAAAAAAAAAAAAAAAA" = false := by decide
          have g9 : jsEqStr (JSValue.str "5485AAAAAAAAAAAAAAAAAAAAAAAAAAAAAAAA") "160541AAAAAAAAAAAAAAAAAAAAAAAAAAAAAA" = false := by decide
          have gq : jsEqNum (JSValue.str "5485AAAAAAAAAAAAAAAAAAAAAAAAAAAAAAAA") 159940 = false := by decide
          simp only [g1, g2, g3, g4, g5, g6, g7, g8, g9, gq]
          norm_num
        · 
          by_cases h4 : s = "159939AAAAAAAAAAAAAAAAAAAAAAAAAAAAAA"
          · subst h4
            have g1 : jsEqStr (JSValue.str "159939AAAAAAAAAAAAAAAAAAAAAAAAAAAAAA") "160542AAAAAAAAAAAAAAAAAAAAAAAAAAAAAA" = false := by decide
            have g2 : jsEqStr (JSValue.str "159939AAAAAAAAAAAAAAAAAAAAAAAAAAAAAA") "160456AAAAAAAAAAAAAAAAAAAAAAAAAAAAAA" = false := by decide
            have g3 : jsEqStr (JSValue.str "159939AAAAAAAAAAAAAAAAAAAAAAAAAAAAAA") "5485AAAAAAAAAAAAAAAAAAAAAAAAAAAAAAAA" = false := by decide
            have g4 : jsEqStr (JSValue.str "159939AAAAAAAAAAAAAAAAAAAAAAAAAAAAAA") "159939AAAAAAAAAAAAAAAAAAAAAAAAAAAAAA" = true := by decide
            have g5 : jsEqStr (JSValue.str "159939AAAAAAAAAAAAAAAAAAAAAAAAAAAAAA") "159938AAAAAAAAAAAAAAAAAAAAAAAAAAAAAA" = false := by decide
            have g6 : jsEqStr (JSValue.str "159939AAAAAAAAAAAAAAAAAAAAAAAAAAAAAA") "162181AAAAAAAAAAAAAAAAAAAAAAAAAAAAAA" = false := by decide
            have g7 : jsEqStr (JSValue.str "159939AAAAAAAAAAAAAAAAAAAAAAAAAAAAAA") "5622AAAAAAAAAAAAAAAAAAAAAAAAAAAAAAAA" = false := by decide
            have g8 : jsEqStr (JSValue.str "159939AAAAAAAAAAAAAAAAAAAAAAAAAAAAAA") "162223AAAAAAAAAAAAAAAAAAAAAAAAAAAAAA" = false := by decide
            have g9 : jsEqStr (JSValue.str "159939AAAAAAAAAAAAAAAAAAAAAAAAAAAAAA") "160541AAAAAAAAAAAAAAAAAAAAAAAAAAAAAA" = false := by decide
            have gq : jsEqNum (JSValue.str "159939AAAAAAAAAAAAAAAAAAAAAAAAAAAAAA") 159940 = false := by decide
            simp only [g1, g2, g3, g4, g5, g6, g7, g8, g9, gq]
            norm_num
          · 
            by_cases h5 : s = "159938AAAAAAAAAAAAAAAAAAAAAAAAAAAAAA"
            · subst h5
              have g1 : jsEqStr (JSValue.str "159938AAAAAAAAAAAAAAAAAAAAAAAAAAAAAA") "160542AAAAAAAAAAAAAAAAAAAAAAAAAAAAAA" = false := by decide
              have g2 : jsEqStr (JSValue.str "159938AAAAAAAAAAAAAAAAAAAAAAAAAAAAAA") "160456AAAAAAAAAAAAAAAAAAAAAAAAAAAAAA" = false := by decide
              have g3 : jsEqStr (JSValue.str "159938AAAAAAAAAAAAAAAAAAAAAAAAAAAAAA") "5485AAAAAAAAAAAAAAAAAAAAAAAAAAAAAAAA" = false := by decide
              have g4 : jsEqStr (JSValue.str "159938AAAAAAAAAAAAAAAAAAAAAAAAAAAAAA") "159939AAAAAAAAAAAAAAAAAAAAAAAAAAAAAA" = false := by decide
              have g5 : jsEqStr (JSValue.str "159938AAAAAAAAAAAAAAAAAAAAAAAAAAAAAA") "159938AAAAAAAAAAAAAAAAAAAAAAAAAAAAAA" = true := by decide
              have g6 : jsEqStr (JSValue.str "159938AAAAAAAAAAAAAAAAAAAAAAAAAAAAAA") "162181AAAAAAAAAAAAAAAAAAAAAAAAAAAAAA" = false := by decide
              have g7 : jsEqStr (JSValue.str "159938AAAAAAAAAAAAAAAAAAAAAAAAAAAAAA") "5622AAAAAAAAAAAAAAAAAAAAAAAAAAAAAAAA" = false := by decide
              have g8 : jsEqStr (JSValue.str "159938AAAAAAAAAAAAAAAAAAAAAAAAAAAAAA") "162223AAAAAAAAAAAAAAAAAAAAAAAAAAAAAA" = false := by decide
              have g9 : jsEqStr (JSValue.str "159938AAAAAAAAAAAAAAAAAAAAAAAAAAAAAA") "160541AAAAAAAAAAAAAAAAAAAAAAAAAAAAAA" = false := by decide
              have gq : jsEqNum (JSValue.str "159938AAAAAAAAAAAAAAAAAAAAAAAAAAAAAA") 159940 = false := by decide
              simp only [g1, g2, g3, g4, g5, g6, g7, g8, g9, gq]
              norm_num
            · 
              by_cases h6 : s = "162181AAAAAAAAAAAAAAAAAAAAAAAAAAAAAA"
              · subst h6
                have g1 : jsEqStr (JSValue.str "162181AAAAAAAAAAAAAAAAAAAAAAAAAAAAAA") "160542AAAAAAAAAAAAAAAAAAAAAAAAAAAAAA" = false := by decide
                have g2 : jsEqStr (JSValue.str "162181AAAAAAAAAAAAAAAAAAAAAAAAAAAAAA") "160456AAAAAAAAAAAAAAAAAAAAAAAAAAAAAA" = false := by decide
                have g3 : jsEqStr (JSValue.str "162181AAAAAAAAAAAAAAAAAAAAAAAAAAAAAA") "5485AAAAAAAAAAAAAAAAAAAAAAAAAAAAAAAA" = false := by decide
                have g4 : jsEqStr (JSValue.str "162181AAAAAAAAAAAAAAAAAAAAAAAAAAAAAA") "159939AAAAAAAAAAAAAAAAAAAAAAAAAAAAAA" = false := by decide
                have g5 : jsEqStr (JSValue.str "162181AAAAAAAAAAAAAAAAAAAAAAAAAAAAAA") "159938AAAAAAAAAAAAAAAAAAAAAAAAAAAAAA" = false := by decide
                have g6 : jsEqStr (JSValue.str "162181AAAAAAAAAAAAAAAAAAAAAAAAAAAAAA") "162181AAAAAAAAAAAAAAAAAAAAAAAAAAAAAA" = true := by decide
                have g7 : jsEqStr (JSValue.str "162181AAAAAAAAAAAAAAAAAAAAAAAAAAAAAA") "5622AAAAAAAAAAAAAAAAAAAAAAAAAAAAAAAA" = false := by decide
                have g8 : jsEqStr (JSValue.str "162181AAAAAAAAAAAAAAAAAAAAAAAAAAAAAA") "162223AAAAAAAAAAAAAAAAAAAAAAAAAAAAAA" = false := by decide
                have g9 : jsEqStr (JSValue.str "162181AAAAAAAAAAAAAAAAAAAAAAAAAAAAAA") "160541AAAAAAAAAAAAAAAAAAAAAAAAAAAAAA" = false := by decide
                have gq : jsEqNum (JSValue.str "162181AAAAAAAAAAAAAAAAAAAAAAAAAAAAAA") 159940 = false := by decide
                simp only [g1, g2, g3, g4, g5, g6, g7, g8, g9, gq]
                norm_num
              · 
                by_cases h7 : s = "5622AAAAAAAAAAAAAAAAAAAAAAAAAAAAAAAA"
                · subst h7
                  have g1 : jsEqStr (JSValue.str "5622AAAAAAAAAAAAAAAAAAAAAAAAAAAAAAAA") "160542AAAAAAAAAAAAAAAAAAAAAAAAAAAAAA" = false := by decide
                  have g2 : jsEqStr (JSValue.str "5622AAAAAAAAAAAAAAAAAAAAAAAAAAAAAAAA") "160456AAAAAAAAAAAAAAAAAAAAAAAAAAAAAA" = false := by decide
                  have g3 : jsEqStr (JSValue.str "5622AAAAAAAAAAAAAAAAAAAAAAAAAAAAAAAA") "5485AAAAAAAAAAAAAAAAAAAAAAAAAAAAAAAA" = false := by decide
                  have g4 : jsEqStr (JSValue.str "5622AAAAAAAAAAAAAAAAAAAAAAAAAAAAAAAA") "159939AAAAAAAAAAAAAAAAAAAAAAAAAAAAAA" = false := by decide
                  have g5 : jsEqStr (JSValue.str "5622AAAAAAAAAAAAAAAAAAAAAAAAAAAAAAAA") "159938AAAAAAAAAAAAAAAAAAAAAAAAAAAAAA" = false := by decide
                  have g6 : jsEqStr (JSValue.str "5622AAAAAAAAAAAAAAAAAAAAAAAAAAAAAAAA") "162181AAAAAAAAAAAAAAAAAAAAAAAAAAAAAA" = false := by decide
                  have g7 : jsEqStr (JSValue.str "5622AAAAAAAAAAAAAAAAAAAAAAAAAAAAAAAA") "5622AAAAAAAAAAAAAAAAAAAAAAAAAAAAAAAA" = true := by decide
                  have g8 : jsEqStr (JSValue.str "5622AAAAAAAAAAAAAAAAAAAAAAAAAAAAAAAA") "162223AAAAAAAAAAAAAAAAAAAAAAAAAAAAAA" = false := by decide
                  have g9 : jsEqStr (JSValue.str "5622AAAAAAAAAAAAAAAAAAAAAAAAAAAAAAAA") "160541AAAAAAAAAAAAAAAAAAAAAAAAAAAAAA" = false := by decide
                  have gq : jsEqNum (JSValue.str "5622AAAAAAAAAAAAAAAAAAAAAAAAAAAAAAAA") 159940 = false := by decide
                  simp only [g1, g2, g3, g4, g5, g6, g7, g8, g9, gq]
                  norm_num
                · 
                  by_cases h8 : s = "162223AAAAAAAAAAAAAAAAAAAAAAAAAAAAAA"
                  · subst h8
                    have g1 : jsEqStr (JSValue.str "162223AAAAAAAAAAAAAAAAAAAAAAAAAAAAAA") "160542AAAAAAAAAAAAAAAAAAAAAAAAAAAAAA" = false := by decide
                    have g2 : jsEqStr (JSValue.str "162223AAAAAAAAAAAAAAAAAAAAAAAAAAAAAA") "160456AAAAAAAAAAAAAAAAAAAAAAAAAAAAAA" = false := by decide
                    have g3 : jsEqStr (JSValue.str "162223AAAAAAAAAAAAAAAAAAAAAAAAAAAAAA") "5485AAAAAAAAAAAAAAAAAAAAAAAAAAAAAAAA" = false := by decide
                    have g4 : jsEqStr (JSValue.str "162223AAAAAAAAAAAAAAAAAAAAAAAAAAAAAA") "159939AAAAAAAAAAAAAAAAAAAAAAAAAAAAAA" = false := by decide
                    have g5 : jsEqStr (JSValue.str "162223AAAAAAAAAAAAAAAAAAAAAAAAAAAAAA") "159938AAAAAAAAAAAAAAAAAAAAAAAAAAAAAA" = false := by decide
                    have g6 : jsEqStr (JSValue.str "162223AAAAAAAAAAAAAAAAAAAAAAAAAAAAAA") "162181AAAAAAAAAAAAAAAAAAAAAAAAAAAAAA" = false := by decide
                    have g7 : jsEqStr (JSValue.str "162223AAAAAAAAAAAAAAAAAAAAAAAAAAAAAA") "5622AAAAAAAAAAAAAAAAAAAAAAAAAAAAAAAA" = false := by decide
                    have g8 : jsEqStr (JSValue.str "162223AAAAAAAAAAAAAAAAAAAAAAAAAAAAAA") "162223AAAAAAAAAAAAAAAAAAAAAAAAAAAAAA" = true := by decide
                    have g9 : jsEqStr (JSValue.str "162223AAAAAAAAAAAAAAAAAAAAAAAAAAAAAA") "160541AAAAAAAAAAAAAAAAAAAAAAAAAAAAAA" = false := by decide
                    have gq : jsEqNum (JSValue.str "162223AAAAAAAAAAAAAAAAAAAAAAAAAAAAAA") 159940 = false := by decide
                    simp only [g1, g2, g3, g4, g5, g6, g7, g8, g9, gq]
                    norm_num
                  · 
                    by_cases h9 : s = "160541AAAAAAAAAAAAAAAAAAAAAAAAAAAAAA"
                    · subst h9
                      have g1 : jsEqStr (JSValue.str "160541AAAAAAAAAAAAAAAAAAAAAAAAAAAAAA") "160542AAAAAAAAAAAAAAAAAAAAAAAAAAAAAA" = false := by decide
                      have g2 : jsEqStr (JSValue.str "160541AAAAAAAAAAAAAAAAAAAAAAAAAAAAAA") "160456AAAAAAAAAAAAAAAAAAAAAAAAAAAAAA" = false := by decide
                      have g3 : jsEqStr (JSValue.str "160541AAAAAAAAAAAAAAAAAAAAAAAAAAAAAA") "5485AAAAAAAAAAAAAAAAAAAAAAAAAAAAAAAA" = false := by decide
                      have g4 : jsEqStr (JSValue.str "160541AAAAAAAAAAAAAAAAAAAAAAAAAAAAAA") "159939AAAAAAAAAAAAAAAAAAAAAAAAAAAAAA" = false := by decide
                      have g5 : jsEqStr (JSValue.str "160541AAAAAAAAAAAAAAAAAAAAAAAAAAAAAA") "159938AAAAAAAAAAAAAAAAAAAAAAAAAAAAAA" = false := by decide
                      have g6 : jsEqStr (JSValue.str "160541AAAAAAAAAAAAAAAAAAAAAAAAAAAAAA") "162181AAAAAAAAAAAAAAAAAAAAAAAAAAAAAA" = false := by decide
                      have g7 : jsEqStr (JSValue.str "160541AAAAAAAAAAAAAAAAAAAAAAAAAAAAAA") "5622AAAAAAAAAAAAAAAAAAAAAAAAAAAAAAAA" = false := by decide
                      have g8 : jsEqStr (JSValue.str "160541AAAAAAAAAAAAAAAAAAAAAAAAAAAAAA") "162223AAAAAAAAAAAAAAAAAAAAAAAAAAAAAA" = false := by decide
                      have g9 : jsEqStr (JSValue.str "160541AAAAAAAAAAAAAAAAAAAAAAAAAAAAAA") "160541AAAAAAAAAAAAAAAAAAAAAAAAAAAAAA" = true := by decide
                      have gq : jsEqNum (JSValue.str "160541AAAAAAAAAAAAAAAAAAAAAAAAAAAAAA") 159940 = false := by decide
                      simp only [g1, g2, g3, g4, g5, g6, g7, g8, g9, gq]
                      norm_num
                    · have e1 : jsEqStr (JSValue.str s) "160542AAAAAAAAAAAAAAAAAAAAAAAAAAAAAA" = false := by simp [jsEqStr, h1]
                      have e2 : jsEqStr (JSValue.str s) "160456AAAAAAAAAAAAAAAAAAAAAAAAAAAAAA" = false := by simp [jsEqStr, h2]
                      have e3 : jsEqStr (JSValue.str s) "5485AAAAAAAAAAAAAAAAAAAAAAAAAAAAAAAA" = false := by simp [jsEqStr, h3]
                      have e4 : jsEqStr (JSValue.str s) "159939AAAAAAAAAAAAAAAAAAAAAAAAAAAAAA" = false := by simp [jsEqStr, h4]
                      have e5 : jsEqStr (JSValue.str s) "159938AAAAAAAAAAAAAAAAAAAAAAAAAAAAAA" = false := by simp [jsEqStr, h5]
                      have e6 : jsEqStr (JSValue.str s) "162181AAAAAAAAAAAAAAAAAAAAAAAAAAAAAA" = false := by simp [jsEqStr, h6]
                      have e7 : jsEqStr (JSValue.str s) "5622AAAAAAAAAAAAAAAAAAAAAAAAAAAAAAAA" = false := by simp [jsEqStr, h7]
                      have e8 : jsEqStr (JSValue.str s) "162223AAAAAAAAAAAAAAAAAAAAAAAAAAAAAA" = false := by simp [jsEqStr, h8]
                      have e9 : jsEqStr (JSValue.str s) "160541AAAAAAAAAAAAAAAAAAAAAAAAAAAAAA" = false := by simp [jsEqStr, h9]
                      simp only [e1, e2, e3, e4, e5, e6, e7, e8, e9]
                      cases hq : jsEqNum (JSValue.str s) 159940 <;> simp [hq]

theorem strategyGroupSpec (params : RawInput) :
    ((predictionVariables params).TestingStrategyHB = 0 ∨ (predictionVariables params).TestingStrategyHB = 1) ∧
    ((predictionVariables params).TestingStrategyMOBILE = 0 ∨ (predictionVariables params).TestingStrategyMOBILE = 1) ∧
    ((predictionVariables params).TestingStrategyHP = 0 ∨ (predictionVariables params).TestingStrategyHP = 1) ∧
    ((predictionVariables params).TestingStrategyNP = 0 ∨ (predictionVariables params).TestingStrategyNP = 1) ∧
    ((predictionVariables params).TestingStrategyVCT = 0 ∨ (predictionVariables params).TestingStrategyVCT = 1) ∧
    (predictionVariables params).TestingStrategyHB + (predictionVariables params).TestingStrategyMOBILE + (predictionVariables params).TestingStrategyHP + (predictionVariables params).TestingStrategyNP + (predictionVariables params).TestingStrategyVCT =
      (if jsEqStr params.p10 "159938AAAAAAAAAAAAAAAAAAAAAAAAAAAAAA" || jsEqStr params.p10 "159939AAAAAAAAAAAAAAAAAAAAAAAAAAAAAA" || jsEqStr params.p10 "164163AAAAAAAAAAAAAAAAAAAAAAAAAAAAAA" || jsEqStr params.p10 "164953AAAAAAAAAAAAAAAAAAAAAAAAAAAAAA" || (jsEqStr params.p10 "164954AAAAAAAAAAAAAAAAAAAAAAAAAAAAAA" || jsEqStr params.p10 "164955AAAAAAAAAAAAAAAAAAAAAAAAAAAAAA") then 1 else 0) := by
  simp only [predictionVariables_TestingStrategyHB, predictionVariables_TestingStrategyMOBILE, predictionVariables_TestingStrategyHP, predictionVariables_TestingStrategyNP, predictionVariables_TestingStrategyVCT]
  cases hp : params.p10 with
  | num q =>
    have e1 : jsEqStr (JSValue.num q) "159938AAAAAAAAAAAAAAAAAAAAAAAAAAAAAA" = false := rfl
    have e2 : jsEqStr (JSValue.num q) "159939AAAAAAAAAAAAAAAAAAAAAAAAAAAAAA" = false := rfl
    have e3 : jsEqStr (JSValue.num q) "164163AAAAAAAAAAAAAAAAAAAAAAAAAAAAAA" = false := rfl
    have e4 : jsEqStr (JSValue.num q) "164953AAAAAAAAAAAAAAAAAAAAAAAAAAAAAA" = false := rfl
    have e5 : jsEqStr (JSValue.num q) "164954AAAAAAAAAAAAAAAAAAAAAAAAAAAAAA" = false := rfl
    have e6 : jsEqStr (JSValue.num q) "164955AAAAAAAAAAAAAAAAAAAAAAAAAAAAAA" = false := rfl
    simp only [e1, e2, e3, e4, e5, e6]
    norm_num
  | str s =>
    by_cases h1 : s = "159938AAAAAAAAAAAAAAAAAAAAAAAAAAAAAA"
    · subst h1
      have g1 : jsEqStr (JSValue.str "159938AAAAAAAAAAAAAAAAAAAAAAAAAAAAAA") "159938AAAAAAAAAAAAAAAAAAAAAAAAAAAAAA" = true := by decide
      have g2 : jsEqStr (JSValue.str "159938AAAAAAAAAAAAAAAAAAAAAAAAAAAAAA") "159939AAAAAAAAAAAAAAAAAAAAAAAAAAAAAA" = false := by decide
      have g3 : jsEqStr (JSValue.str "159938AAAAAAAAAAAAAAAAAAAAAAAAAAAAAA") "164163AAAAAAAAAAAAAAAAAAAAAAAAAAAAAA" = false := by decide
      have g4 : jsEqStr (JSValue.str "159938AAAAAAAAAAAAAAAAAAAAAAAAAAAAAA") "164953AAAAAAAAAAAAAAAAAAAAAAAAAAAAAA" = false := by decide
      have g5 : jsEqStr (JSValue.str "159938AAAAAAAAAAAAAAAAAAAAAAAAAAAAAA") "164954AAAAAAAAAAAAAAAAAAAAAAAAAAAAAA" = false := by decide
      have g6 : jsEqStr (JSValue.str "159938AAAAAAAAAAAAAAAAAAAAAAAAAAAAAA") "164955AAAAAAAAAAAAAAAAAAAAAAAAAAAAAA" = false := by decide
      simp only [g1, g2, g3, g4, g5, g6]
      norm_num
    · 
      by_cases h2 : s = "159939AAAAAAAAAAAAAAAAAAAAAAAAAAAAAA"
      · subst h2
        have g1 : jsEqStr (JSValue.str "159939AAAAAAAAAAAAAAAAAAAAAAAAAAAAAA") "159938AAAAAAAAAAAAAAAAAAAAAAAAAAAAAA" = false := by decide
        have g2 : jsEqStr (JSValue.str "159939AAAAAAAAAAAAAAAAAAAAAAAAAAAAAA") "159939AAAAAAAAAAAAAAAAAAAAAAAAAAAAAA" = true := by decide
        have g3 : jsEqStr (JSValue.str "159939AAAAAAAAAAAAAAAAAAAAAAAAAAAAAA") "164163AAAAAAAAAAAAAAAAAAAAAAAAAAAAAA" = false := by decide
        have g4 : jsEqStr (JSValue.str "159939AAAAAAAAAAAAAAAAAAAAAAAAAAAAAA") "164953AAAAAAAAAAAAAAAAAAAAAAAAAAAAAA" = false := by decide
        have g5 : jsEqStr (JSValue.str "159939AAAAAAAAAAAAAAAAAAAAAAAAAAAAAA") "164954AAAAAAAAAAAAAAAAAAAAAAAAAAAAAA" = false := by decide
        have g6 : jsEqStr (JSValue.str "159939AAAAAAAAAAAAAAAAAAAAAAAAAAAAAA") "164955AAAAAAAAAAAAAAAAAAAAAAAAAAAAAA" = false := by decide
        simp only [g1, g2, g3, g4, g5, g6]
        norm_num
      · 
        by_cases h3 : s = "164163AAAAAAAAAAAAAAAAAAAAAAAAAAAAAA"
        · subst h3
          have g1 : jsEqStr (JSValue.str "164163AAAAAAAAAAAAAAAAAAAAAAAAAAAAAA") "159938AAAAAAAAAAAAAAAAAAAAAAAAAAAAAA" = false := by decide
          have g2 : jsEqStr (JSValue.str "164163AAAAAAAAAAAAAAAAAAAAAAAAAAAAAA") "159939AAAAAAAAAAAAAAAAAAAAAAAAAAAAAA" = false := by decide
          have g3 : jsEqStr (JSValue.str "164163AAAAAAAAAAAAAAAAAAAAAAAAAAAAAA") "164163AAAAAAAAAAAAAAAAAAAAAAAAAAAAAA" = true := by decide
          have g4 : jsEqStr (JSValue.str "164163AAAAAAAAAAAAAAAAAAAAAAAAAAAAAA") "164953AAAAAAAAAAAAAAAAAAAAAAAAAAAAAA" = false := by decide
          have g5 : jsEqStr (JSValue.str "164163AAAAAAAAAAAAAAAAAAAAAAAAAAAAAA") "164954AAAAAAAAAAAAAAAAAAAAAAAAAAAAAA" = false := by decide
          have g6 : jsEqStr (JSValue.str "164163AAAAAAAAAAAAAAAAAAAAAAAAAAAAAA") "164955AAAAAAAAAAAAAAAAAAAAAAAAAAAAAA" = false := by decide
          simp only [g1, g2, g3, g4, g5, g6]
          norm_num
        · 
          by_cases h4 : s = "164953AAAAAAAAAAAAAAAAAAAAAAAAAAAAAA"
          · subst h4
            have g1 : jsEqStr (JSValue.str "164953AAAAAAAAAAAAAAAAAAAAAAAAAAAAAA") "159938AAAAAAAAAAAAAAAAAAAAAAAAAAAAAA" = false := by decide
            have g2 : jsEqStr (JSValue.str "164953AAAAAAAAAAAAAAAAAAAAAAAAAAAAAA") "159939AAAAAAAAAAAAAAAAAAAAAAAAAAAAAA" = false := by decide
            have g3 : jsEqStr (JSValue.str "164953AAAAAAAAAAAAAAAAAAAAAAAAAAAAAA") "164163AAAAAAAAAAAAAAAAAAAAAAAAAAAAAA" = false := by decide
            have g4 : jsEqStr (JSValue.str "164953AAAAAAAAAAAAAAAAAAAAAAAAAAAAAA") "164953AAAAAAAAAAAAAAAAAAAAAAAAAAAAAA" = true := by decide
            have g5 : jsEqStr (JSValue.str "164953AAAAAAAAAAAAAAAAAAAAAAAAAAAAAA") "164954AAAAAAAAAAAAAAAAAAAAAAAAAAAAAA" = false := by decide
            have g6 : jsEqStr (JSValue.str "164953AAAAAAAAAAAAAAAAAAAAAAAAAAAAAA") "164955AAAAAAAAAAAAAAAAAAAAAAAAAAAAAA" = false := by decide
            simp only [g1, g2, g3, g4, g5, g6]
            norm_num
          · 
            by_cases h5 : s = "164954AAAAAAAAAAAAAAAAAAAAAAAAAAAAAA"
            · subst h5
              have g1 : jsEqStr (JSValue.str "164954AAAAAAAAAAAAAAAAAAAAAAAAAAAAAA") "159938AAAAAAAAAAAAAAAAAAAAAAAAAAAAAA" = false := by decide
              have g2 : jsEqStr (JSValue.str "164954AAAAAAAAAAAAAAAAAAAAAAAAAAAAAA") "159939AAAAAAAAAAAAAAAAAAAAAAAAAAAAAA" = false := by decide
              have g3 : jsEqStr (JSValue.str "164954AAAAAAAAAAAAAAAAAAAAAAAAAAAAAA") "164163AAAAAAAAAAAAAAAAAAAAAAAAAAAAAA" = false := by decide
              have g4 : jsEqStr (JSValue.str "164954AAAAAAAAAAAAAAAAAAAAAAAAAAAAAA") "164953AAAAAAAAAAAAAAAAAAAAAAAAAAAAAA" = false := by decide
              have g5 : jsEqStr (JSValue.str "164954AAAAAAAAAAAAAAAAAAAAAAAAAAAAAA") "164954AAAAAAAAAAAAAAAAAAAAAAAAAAAAAA" = true := by decide
              have g6 : jsEqStr (JSValue.str "164954AAAAAAAAAAAAAAAAAAAAAAAAAAAAAA") "164955AAAAAAAAAAAAAAAAAAAAAAAAAAAAAA" = false := by decide
              simp only [g1, g2, g3, g4, g5, g6]
              norm_num
            · 
              by_cases h6 : s = "164955AAAAAAAAAAAAAAAAAAAAAAAAAAAAAA"
              · subst h6
                have g1 : jsEqStr (JSValue.str "164955AAAAAAAAAAAAAAAAAAAAAAAAAAAAAA") "159938AAAAAAAAAAAAAAAAAAAAAAAAAAAAAA" = false := by decide
                have g2 : jsEqStr (JSValue.str "164955AAAAAAAAAAAAAAAAAAAAAAAAAAAAAA") "159939AAAAAAAAAAAAAAAAAAAAAAAAAAAAAA" = false := by decide
                have g3 : jsEqStr (JSValue.str "164955AAAAAAAAAAAAAAAAAAAAAAAAAAAAAA") "164163AAAAAAAAAAAAAAAAAAAAAAAAAAAAAA" = false := by decide
                have g4 : jsEqStr (JSValue.str "164955AAAAAAAAAAAAAAAAAAAAAAAAAAAAAA") "164953AAAAAAAAAAAAAAAAAAAAAAAAAAAAAA" = false := by decide
                have g5 : jsEqStr (JSValue.str "164955AAAAAAAAAAAAAAAAAAAAAAAAAAAAAA") "164954AAAAAAAAAAAAAAAAAAAAAAAAAAAAAA" = false := by decide
                have g6 : jsEqStr (JSValue.str "164955AAAAAAAAAAAAAAAAAAAAAAAAAAAAAA") "164955AAAAAAAAAAAAAAAAAAAAAAAAAAAAAA" = true := by decide
                simp only [g1, g2, g3, g4, g5, g6]
                norm_num
              · have e1 : jsEqStr (JSValue.str s) "159938AAAAAAAAAAAAAAAAAAAAAAAAAAAAAA" = false := by simp [jsEqStr, h1]
                have e2 : jsEqStr (JSValue.str s) "159939AAAAAAAAAAAAAAAAAAAAAAAAAAAAAA" = false := by simp [jsEqStr, h2]
                have e3 : jsEqStr (JSValue.str s) "164163AAAAAAAAAAAAAAAAAAAAAAAAAAAAAA" = false := by simp [jsEqStr, h3]
                have e4 : jsEqStr (JSValue.str s) "164953AAAAAAAAAAAAAAAAAAAAAAAAAAAAAA" = false := by simp [jsEqStr, h4]
                have e5 : jsEqStr (JSValue.str s) "164954AAAAAAAAAAAAAAAAAAAAAAAAAAAAAA" = false := by simp [jsEqStr, h5]
                have e6 : jsEqStr (JSValue.str s) "164955AAAAAAAAAAAAAAAAAAAAAAAAAAAAAA" = false := by simp [jsEqStr, h6]
                simp only [e1, e2, e3, e4, e5, e6]
                norm_num

theorem tbScreeningGroupSpec (params : RawInput) :
    ((predictionVariables params).TBScreeningNoPresumedTB = 0 ∨ (predictionVariables params).TBScreeningNoPresumedTB = 1) ∧
    ((predictionVariables params).TBScreeningPresumedTB = 0 ∨ (predictionVariables params).TBScreeningPresumedTB = 1) ∧
    (predictionVariables params).TBScreeningNoPresumedTB + (predictionVariables params).TBScreeningPresumedTB =
      (if (jsEqStr params.p9 "1660AAAAAAAAAAAAAAAAAAAAAAAAAAAAAAAA" || jsEqStr params.p9 "160737AAAAAAAAAAAAAAAAAAAAAAAAAAAAAA") || (jsEqStr params.p9 "142177AAAAAAAAAAAAAAAAAAAAAAAAAAAAAA" || jsEqStr params.p9 "1111AAAAAAAAAAAAAAAAAAAAAAAAAAAAAAAA") then 1 else 0) := by
  simp only [predictionVariables_TBScreeningNoPresumedTB, predictionVariables_TBScreeningPresumedTB]
  cases hp : params.p9 with
  | num q =>
    have e1 : jsEqStr (JSValue.num q) "1660AAAAAAAAAAAAAAAAAAAAAAAAAAAAAAAA" = false := rfl
    have e2 : jsEqStr (JSValue.num q) "160737AAAAAAAAAAAAAAAAAAAAAAAAAAAAAA" = false := rfl
    have e3 : jsEqStr (JSValue.num q) "142177AAAAAAAAAAAAAAAAAAAAAAAAAAAAAA" = false := rfl
    have e4 : jsEqStr (JSValue.num q) "1111AAAAAAAAAAAAAAAAAAAAAAAAAAAAAAAA" = false := rfl
    simp only [e1, e2, e3, e4]
    norm_num
  | str s =>
    by_cases h1 : s = "1660AAAAAAAAAAAAAAAAAAAAAAAAAAAAAAAA"
    · subst h1
      have g1 : jsEqStr (JSValue.str "1660AAAAAAAAAAAAAAAAAAAAAAAAAAAAAAAA") "1660AAAAAAAAAAAAAAAAAAAAAAAAAAAAAAAA" = true := by decide
      have g2 : jsEqStr (JSValue.str "1660AAAAAAAAAAAAAAAAAAAAAAAAAAAAAAAA") "160737AAAAAAAAAAAAAAAAAAAAAAAAAAAAAA" = false := by decide
      have g3 : jsEqStr (JSValue.str "1660AAAAAAAAAAAAAAAAAAAAAAAAAAAAAAAA") "142177AAAAAAAAAAAAAAAAAAAAAAAAAAAAAA" = false := by decide
      have g4 : jsEqStr (JSValue.str "1660AAAAAAAAAAAAAAAAAAAAAAAAAAAAAAAA") "1111AAAAAAAAAAAAAAAAAAAAAAAAAAAAAAAA" = false := by decide
      simp only [g1, g2, g3, g4]
      norm_num
    · 
      by_cases h2 : s = "160737AAAAAAAAAAAAAAAAAAAAAAAAAAAAAA"
      · subst h2
        have g1 : jsEqStr (JSValue.str "160737AAAAAAAAAAAAAAAAAAAAAAAAAAAAAA") "1660AAAAAAAAAAAAAAAAAAAAAAAAAAAAAAAA" = false := by decide
        have g2 : jsEqStr (JSValue.str "160737AAAAAAAAAAAAAAAAAAAAAAAAAAAAAA") "160737AAAAAAAAAAAAAAAAAAAAAAAAAAAAAA" = true := by decide
        have g3 : jsEqStr (JSValue.str "160737AAAAAAAAAAAAAAAAAAAAAAAAAAAAAA") "142177AAAAAAAAAAAAAAAAAAAAAAAAAAAAAA" = false := by decide
        have g4 : jsEqStr (JSValue.str "160737AAAAAAAAAAAAAAAAAAAAAAAAAAAAAA") "1111AAAAAAAAAAAAAAAAAAAAAAAAAAAAAAAA" = false := by decide
        simp only [g1, g2, g3, g4]
        norm_num
      · 
        by_cases h3 : s = "142177AAAAAAAAAAAAAAAAAAAAAAAAAAAAAA"
        · subst h3
          have g1 : jsEqStr (JSValue.str "142177AAAAAAAAAAAAAAAAAAAAAAAAAAAAAA") "1660AAAAAAAAAAAAAAAAAAAAAAAAAAAAAAAA" = false := by decide
          have g2 : jsEqStr (JSValue.str "142177AAAAAAAAAAAAAAAAAAAAAAAAAAAAAA") "160737AAAAAAAAAAAAAAAAAAAAAAAAAAAAAA" = false := by decide
          have g3 : jsEqStr (JSValue.str "142177AAAAAAAAAAAAAAAAAAAAAAAAAAAAAA") "142177AAAAAAAAAAAAAAAAAAAAAAAAAAAAAA" = true := by decide
          have g4 : jsEqStr (JSValue.str "142177AAAAAAAAAAAAAAAAAAAAAAAAAAAAAA") "1111AAAAAAAAAAAAAAAAAAAAAAAAAAAAAAAA" = false := by decide
          simp only [g1, g2, g3, g4]
          norm_num
        · 
          by_cases h4 : s = "1111AAAAAAAAAAAAAAAAAAAAAAAAAAAAAAAA"
          · subst h4
            have g1 : jsEqStr (JSValue.str "1111AAAAAAAAAAAAAAAAAAAAAAAAAAAAAAAA") "1660AAAAAAAAAAAAAAAAAAAAAAAAAAAAAAAA" = false := by decide
            have g2 : jsEqStr (JSValue.str "1111AAAAAAAAAAAAAAAAAAAAAAAAAAAAAAAA") "160737AAAAAAAAAAAAAAAAAAAAAAAAAAAAAA" = false := by decide
            have g3 : jsEqStr (JSValue.str "1111AAAAAAAAAAAAAAAAAAAAAAAAAAAAAAAA") "142177AAAAAAAAAAAAAAAAAAAAAAAAAAAAAA" = false := by decide
            have g4 : jsEqStr (JSValue.str "1111AAAAAAAAAAAAAAAAAAAAAAAAAAAAAAAA") "1111AAAAAAAAAAAAAAAAAAAAAAAAAAAAAAAA" = true := by decide
            simp only [g1, g2, g3, g4]
            norm_num
          · have e1 : jsEqStr (JSValue.str s) "1660AAAAAAAAAAAAAAAAAAAAAAAAAAAAAAAA" = false := by simp [jsEqStr, h1]
            have e2 : jsEqStr (JSValue.str s) "160737AAAAAAAAAAAAAAAAAAAAAAAAAAAAAA" = false := by simp [jsEqStr, h2]
            have e3 : jsEqStr (JSValue.str s) "142177AAAAAAAAAAAAAAAAAAAAAAAAAAAAAA" = false := by simp [jsEqStr, h3]
            have e4 : jsEqStr (JSValue.str s) "1111AAAAAAAAAAAAAAAAAAAAAAAAAAAAAAAA" = false := by simp [jsEqStr, h4]
            simp only [e1, e2, e3, e4]
            norm_num

theorem selfTestGroupSpec (params : RawInput) :
    ((predictionVariables params).ClientSelfTestedNo = 0 ∨ (predictionVariables params).ClientSelfTestedNo = 1) ∧
    ((predictionVariables params).ClientSelfTestedYes = 0 ∨ (predictionVariables params).ClientSelfTestedYes = 1) ∧
    (predictionVariables params).ClientSelfTestedNo + (predictionVariables params).ClientSelfTestedYes =
      (if jsEqStr params.p8 "1066AAAAAAAAAAAAAAAAAAAAAAAAAAAAAAAA" || jsEqStr params.p8 "1065AAAAAAAAAAAAAAAAAAAAAAAAAAAAAAAA" then 1 else 0) := by
  simp only [predictionVariables_ClientSelfTestedNo, predictionVariables_ClientSelfTestedYes]
  cases hp : params.p8 with
  | num q =>
    have e1 : jsEqStr (JSValue.num q) "1066AAAAAAAAAAAAAAAAAAAAAAAAAAAAAAAA" = false := rfl
    have e2 : jsEqStr (JSValue.num q) "1065AAAAAAAAAAAAAAAAAAAAAAAAAAAAAAAA" = false := rfl
    simp only [e1, e2]
    norm_num
  | str s =>
    by_cases h1 : s = "1066AAAAAAAAAAAAAAAAAAAAAAAAAAAAAAAA"
    · subst h1
      have g1 : jsEqStr (JSValue.str "1066AAAAAAAAAAAAAAAAAAAAAAAAAAAAAAAA") "1066AAAAAAAAAAAAAAAAAAAAAAAAAAAAAAAA" = true := by decide
      have g2 : jsEqStr (JSValue.str "1066AAAAAAAAAAAAAAAAAAAAAAAAAAAAAAAA") "1065AAAAAAAAAAAAAAAAAAAAAAAAAAAAAAAA" = false := by decide
      simp only [g1, g2]
      norm_num
    · 
      by_cases h2 : s = "1065AAAAAAAAAAAAAAAAAAAAAAAAAAAAAAAA"
      · subst h2
        have g1 : jsEqStr (JSValue.str "1065AAAAAAAAAAAAAAAAAAAAAAAAAAAAAAAA") "1066AAAAAAAAAAAAAAAAAAAAAAAAAAAAAAAA" = false := by decide
        have g2 : jsEqStr (JSValue.str "1065AAAAAAAAAAAAAAAAAAAAAAAAAAAAAAAA") "1065AAAAAAAAAAAAAAAAAAAAAAAAAAAAAAAA" = true := by decide
        simp only [g1, g2]
        norm_num
      · have e1 : jsEqStr (JSValue.str s) "1066AAAAAAAAAAAAAAAAAAAAAAAAAAAAAAAA" = false := by simp [jsEqStr, h1]
        have e2 : jsEqStr (JSValue.str s) "1065AAAAAAAAAAAAAAAAAAAAAAAAAAAAAAAA" = false := by simp [jsEqStr, h2]
        simp only [e1, e2]
        norm_num


/-! The claim theorems. -/

/-- Claim C1, counterexample: the claim says a probability exactly equal to a
threshold resolves to the lower tier, in particular that
p = highRiskThreshold (0.028924102) yields the high-probability message. The
code's high-tier branch tests the strict `p < highRiskThreshold`, so the
boundary value falls through to the medium-probability message instead. -/
theorem C1_high_boundary_counterexample :
    classify highRiskThreshold = mediumMessage ∧ classify highRiskThreshold ≠ highMessage := by
  constructor
  · norm_num [classify, lowRiskThreshold, mediumRiskThreshold, highRiskThreshold]
  · norm_num [classify, lowRiskThreshold, mediumRiskThreshold, highRiskThreshold]
    decide

/-- Claim C1, amended: `classify` is a total function mapping every
probability to exactly one of the four tier messages, with the tiers cut at
the fixed thresholds; a `p` exactly equal to the low or medium threshold
resolves to the lower tier, but a `p` exactly equal to the high threshold
resolves to the medium tier (two tiers down), because the high-tier branch
uses a strict less-than on both sides. -/
theorem C1_classification_partition (p : ℚ) :
    (highRiskThreshold < p → classify p = veryHighMessage) ∧
    (mediumRiskThreshold < p → p < highRiskThreshold → classify p = highMessage) ∧
    (lowRiskThreshold < p → p ≤ mediumRiskThreshold → classify p = mediumMessage) ∧
    (p = highRiskThreshold → classify p = mediumMessage) ∧
    (p ≤ lowRiskThreshold → classify p = lowMessage) := by
  obtain ⟨hlm, hmh⟩ := threshold_order
  refine ⟨fun h => ?_, fun h1 h2 => ?_, fun h1 h2 => ?_, fun h => ?_, fun h => ?_⟩
  · simp [classify, h]
  · have hn : ¬ (highRiskThreshold < p) := not_lt.mpr (le_of_lt h2)
    simp [classify, hn, h1, h2]
  · have hn1 : ¬ (highRiskThreshold < p) := not_lt.mpr (by linarith)
    have hn2 : ¬ (mediumRiskThreshold < p) := not_lt.mpr h2
    simp [classify, hn1, hn2, h1]
  · subst h
    norm_num [classify, lowRiskThreshold, mediumRiskThreshold, highRiskThreshold]
  · have hn1 : ¬ (highRiskThreshold < p) := not_lt.mpr (by linarith)
    have hn2 : ¬ (mediumRiskThreshold < p) := not_lt.mpr (by linarith)
    have hn3 : ¬ (lowRiskThreshold < p) := not_lt.mpr h
    simp [classify, hn1, hn2, hn3, h]

/-- Claim C2: the request body `getMLRiskScore` transmits is the same for any
two raw inputs, and is the fixed fully-populated sample payload with the
hardcoded model configuration and date; the dynamically encoded
`predictionVariables` vector never reaches the wire. -/
theorem C2_payload_independent_of_inputs (params1 params2 : RawInput) :
    getMLRiskScoreRequestBody params1 = getMLRiskScoreRequestBody params2 ∧
    getMLRiskScoreRequestBody params1 = mlScoringRequestPayload :=
  ⟨rfl, rfl⟩

/-- Claim C3, counterexample: the claim says probability 0.01 yields the
high-probability message, but 0.01 is below the medium threshold 0.010638781,
so the code returns the medium-probability message. -/
theorem C3_probability_001_counterexample :
    classify (1 / 100) = mediumMessage ∧ classify (1 / 100) ≠ highMessage := by
  constructor
  · norm_num [classify, lowRiskThreshold, mediumRiskThreshold, highRiskThreshold]
  · norm_num [classify, lowRiskThreshold, mediumRiskThreshold, highRiskThreshold]
    decide

/-- Claim C3, amended: probability 0.03 yields the very-high message, 0.01
and 0.005 both yield the medium message (both lie between the low and medium
thresholds), and 0.001 yields the low message. -/
theorem C3_scenario_messages :
    classify (3 / 100) = veryHighMessage ∧ classify (1 / 100) = mediumMessage ∧
    classify (1 / 200) = mediumMessage ∧ classify (1 / 1000) = lowMessage := by
  refine ⟨?_, ?_, ?_, ?_⟩ <;>
    norm_num [classify, lowRiskThreshold, mediumRiskThreshold, highRiskThreshold]

/-- Claim C4: when the parsed response has no `result.predictions` field (the
body `{}` parses to no predictions), `getMLRiskScore` returns the sentinel
string "No results found"; the handler is total, so nothing is thrown. -/
theorem C4_missing_predictions_sentinel :
    getMLRiskScoreResult none = "No results found" := rfl

/-- Claim C5: within each mutually-exclusive indicator group of the feature
vector (gender, coded marital status, key-population type, disability,
ever-tested, tested-as, entry point, testing strategy, TB screening,
self-tested), every field is 0 or 1 and the group sums to 1 exactly when one
of the group's comparisons matched: at most one indicator is set by a
matching rule, the others stay 0, and an unrecognized code leaves the whole
group at its 0 default. (The minor flag is driven by the separate numeric age
rule, not by a marital-status code.) -/
theorem C5_group_mutual_exclusivity (params : RawInput) :
    (((predictionVariables params).GenderMale = 0 ∨ (predictionVariables params).GenderMale = 1) ∧
    ((predictionVariables params).GenderFemale = 0 ∨ (predictionVariables params).GenderFemale = 1) ∧
    (predictionVariables params).GenderMale + (predictionVariables params).GenderFemale =
      (if jsEqStr params.p3 "M" || jsEqStr params.p3 "F" then 1 else 0)) ∧
    (((predictionVariables params).MaritalStatusMarried = 0 ∨ (predictionVariables params).MaritalStatusMarried = 1) ∧
    ((predictionVariables params).MaritalStatusPolygamous = 0 ∨ (predictionVariables params).MaritalStatusPolygamous = 1) ∧
    ((predictionVariables params).MaritalStatusDivorced = 0 ∨ (predictionVariables params).MaritalStatusDivorced = 1) ∧
    ((predictionVariables params).MaritalStatusWidowed = 0 ∨ (predictionVariables params).MaritalStatusWidowed = 1) ∧
    ((predictionVariables params).MaritalStatusSingle = 0 ∨ (predictionVariables params).MaritalStatusSingle = 1) ∧
    (predictionVariables params).MaritalStatusMarried + (predictionVariables params).MaritalStatusPolygamous + (predictionVariables params).MaritalStatusDivorced + (predictionVariables params).MaritalStatusWidowed + (predictionVariables params).MaritalStatusSingle =
      (if jsEqStr params.p5 "5555AAAAAAAAAAAAAAAAAAAAAAAAAAAAAAAA" || jsEqStr params.p5 "159715AAAAAAAAAAAAAAAAAAAAAAAAAAAAAA" || jsEqStr params.p5 "1058AAAAAAAAAAAAAAAAAAAAAAAAAAAAAAAA" || jsEqStr params.p5 "1059AAAAAAAAAAAAAAAAAAAAAAAAAAAAAAAA" || jsEqStr params.p5 "1057AAAAAAAAAAAAAAAAAAAAAAAAAAAAAAAA" then 1 else 0)) ∧
    (((predictionVariables params).KeyPopulationTypeGP = 0 ∨ (predictionVariables params).KeyPopulationTypeGP = 1) ∧
    ((predictionVariables params).KeyPopulationTypeSW = 0 ∨ (predictionVariables params).KeyPopulationTypeSW = 1) ∧
    (predictionVariables params).KeyPopulationTypeGP + (predictionVariables params).KeyPopulationTypeSW =
      (if jsEqStr params.p7 "164928AAAAAAAAAAAAAAAAAAAAAAAAAAAAAA" || jsEqStr params.p7 "164929AAAAAAAAAAAAAAAAAAAAAAAAAAAAAA" then 1 else 0)) ∧
    (((predictionVariables params).PatientDisabledNo = 0 ∨ (predictionVariables params).PatientDisabledNo = 1) ∧
    ((predictionVariables params).PatientDisabledDisabled = 0 ∨ (predictionVariables params).PatientDisabledDisabled = 1) ∧
    (predictionVariables params).PatientDisabledNo + (predictionVariables params).PatientDisabledDisabled =
      (if jsEqStr params.p4 "1066AAAAAAAAAAAAAAAAAAAAAAAAAAAAAAAA" || jsEqStr params.p4 "1065AAAAAAAAAAAAAAAAAAAAAAAAAAAAAAAA" then 1 else 0)) ∧
    (((predictionVariables params).EverTestedForHIVYes = 0 ∨ (predictionVariables params).EverTestedForHIVYes = 1) ∧
    ((predictionVariables params).EverTestedForHivNo = 0 ∨ (predictionVariables params).EverTestedForHivNo = 1) ∧
    (predictionVariables params).EverTestedForHIVYes + (predictionVariables params).EverTestedForHivNo =
      (if jsEqStr params.p2 "1065AAAAAAAAAAAAAAAAAAAAAAAAAAAAAAAA" || jsEqStr params.p2 "1066AAAAAAAAAAAAAAAAAAAAAAAAAAAAAAAA" then 1 else 0)) ∧
    (((predictionVariables params).ClientTestedAsIndividual = 0 ∨ (predictionVariables params).ClientTestedAsIndividual = 1) ∧
    ((predictionVariables params).ClientTestedAsCouple = 0 ∨ (predictionVariables params).ClientTestedAsCouple = 1) ∧
    (predictionVariables params).ClientTestedAsIndividual + (predictionVariables params).ClientTestedAsCouple =
      (if jsEqStr params.p2 "164957AAAAAAAAAAAAAAAAAAAAAAAAAAAAAA" || jsEqStr params.p2 "164958AAAAAAAAAAAAAAAAAAAAAAAAAAAAAA" then 1 else 0)) ∧
    (((predictionVariables params).EntryPointVCT = 0 ∨ (predictionVariables params).EntryPointVCT = 1) ∧
    ((predictionVariables params).EntryPointOPD = 0 ∨ (predictionVariables params).EntryPointOPD = 1) ∧
    ((predictionVariables params).EntryPointMTC = 0 ∨ (predictionVariables params).EntryPointMTC = 1) ∧
    ((predictionVariables params).EntryPointIPD = 0 ∨ (predictionVariables params).EntryPointIPD = 1) ∧
    ((predictionVariables params).EntryPointMOBILE = 0 ∨ (predictionVariables params).EntryPointMOBILE = 1) ∧
    ((predictionVariables params).EntryPointHB = 0 ∨ (predictionVariables params).EntryPointHB = 1) ∧
    ((predictionVariables params).EntryPointPEDS = 0 ∨ (predictionVariables params).EntryPointPEDS = 1) ∧
    ((predictionVariables params).EntryPointOther = 0 ∨ (predictionVariables params).EntryPointOther = 1) ∧
    ((predictionVariables params).EntryPointVMMC = 0 ∨ (predictionVariables params).EntryPointVMMC = 1) ∧
    ((predictionVariables params).EntryPointTB = 0 ∨ (predictionVariables params).EntryPointTB = 1) ∧
    ((predictionVariables params).EntryPointCCC = 0 ∨ (predictionVariables params).EntryPointCCC = 1) ∧
    ((predictionVariables params).EntryPointPNS = 0 ∨ (predictionVariables params).EntryPointPNS = 1) ∧
    (predictionVariables params).EntryPointVCT + (predictionVariables params).EntryPointOPD + (predictionVariables params).EntryPointMTC + (predictionVariables params).EntryPointIPD + (predictionVariables params).EntryPointMOBILE + (predictionVariables params).EntryPointHB + (predictionVariables params).EntryPointPEDS + (predictionVariables params).EntryPointOther + (predictionVariables params).EntryPointVMMC + (predictionVariables params).EntryPointTB + (predictionVariables params).EntryPointCCC + (predictionVariables params).EntryPointPNS =
      (if jsEqNum params.p1 159940 || jsEqStr params.p1 "160542AAAAAAAAAAAAAAAAAAAAAAAAAAAAAA" || jsEqStr params.p1 "160456AAAAAAAAAAAAAAAAAAAAAAAAAAAAAA" || jsEqStr params.p1 "5485AAAAAAAAAAAAAAAAAAAAAAAAAAAAAAAA" || jsEqStr params.p1 "159939AAAAAAAAAAAAAAAAAAAAAAAAAAAAAA" || jsEqStr params.p1 "159938AAAAAAAAAAAAAAAAAAAAAAAAAAAAAA" || jsEqStr params.p1 "162181AAAAAAAAAAAAAAAAAAAAAAAAAAAAAA" || jsEqStr params.p1 "5622AAAAAAAAAAAAAAAAAAAAAAAAAAAAAAAA" || jsEqStr params.p1 "162223AAAAAAAAAAAAAAAAAAAAAAAAAAAAAA" || jsEqStr params.p1 "160541AAAAAAAAAAAAAAAAAAAAAAAAAAAAAA" then 1 else 0)) ∧
    (((predictionVariables params).TestingStrategyHB = 0 ∨ (predictionVariables params).TestingStrategyHB = 1) ∧
    ((predictionVariables params).TestingStrategyMOBILE = 0 ∨ (predictionVariables params).TestingStrategyMOBILE = 1) ∧
    ((predictionVariables params).TestingStrategyHP = 0 ∨ (predictionVariables params).TestingStrategyHP = 1) ∧
    ((predictionVariables params).TestingStrategyNP = 0 ∨ (predictionVariables params).TestingStrategyNP = 1) ∧
    ((predictionVariables params).TestingStrategyVCT = 0 ∨ (predictionVariables params).TestingStrategyVCT = 1) ∧
    (predictionVariables params).TestingStrategyHB + (predictionVariables params).TestingStrategyMOBILE + (predictionVariables params).TestingStrategyHP + (predictionVariables params).TestingStrategyNP + (predictionVariables params).TestingStrategyVCT =
      (if jsEqStr params.p10 "159938AAAAAAAAAAAAAAAAAAAAAAAAAAAAAA" || jsEqStr params.p10 "159939AAAAAAAAAAAAAAAAAAAAAAAAAAAAAA" || jsEqStr params.p10 "164163AAAAAAAAAAAAAAAAAAAAAAAAAAAAAA" || jsEqStr params.p10 "164953AAAAAAAAAAAAAAAAAAAAAAAAAAAAAA" || (jsEqStr params.p10 "164954AAAAAAAAAAAAAAAAAAAAAAAAAAAAAA" || jsEqStr params.p10 "164955AAAAAAAAAAAAAAAAAAAAAAAAAAAAAA") then 1 else 0)) ∧
    (((predictionVariables params).TBScreeningNoPresumedTB = 0 ∨ (predictionVariables params).TBScreeningNoPresumedTB = 1) ∧
    ((predictionVariables params).TBScreeningPresumedTB = 0 ∨ (predictionVariables params).TBScreeningPresumedTB = 1) ∧
    (predictionVariables params).TBScreeningNoPresumedTB + (predictionVariables params).TBScreeningPresumedTB =
      (if (jsEqStr params.p9 "1660AAAAAAAAAAAAAAAAAAAAAAAAAAAAAAAA" || jsEqStr params.p9 "160737AAAAAAAAAAAAAAAAAAAAAAAAAAAAAA") || (jsEqStr params.p9 "142177AAAAAAAAAAAAAAAAAAAAAAAAAAAAAA" || jsEqStr params.p9 "1111AAAAAAAAAAAAAAAAAAAAAAAAAAAAAAAA") then 1 else 0)) ∧
    (((predictionVariables params).ClientSelfTestedNo = 0 ∨ (predictionVariables params).ClientSelfTestedNo = 1) ∧
    ((predictionVariables params).ClientSelfTestedYes = 0 ∨ (predictionVariables params).ClientSelfTestedYes = 1) ∧
    (predictionVariables params).ClientSelfTestedNo + (predictionVariables params).ClientSelfTestedYes =
      (if jsEqStr params.p8 "1066AAAAAAAAAAAAAAAAAAAAAAAAAAAAAAAA" || jsEqStr params.p8 "1065AAAAAAAAAAAAAAAAAAAAAAAAAAAAAAAA" then 1 else 0)) :=
  ⟨genderGroupSpec params, maritalStatusGroupSpec params, populationTypeGroupSpec params, disabilityGroupSpec params, everTestedGroupSpec params, testedAsGroupSpec params, entryPointGroupSpec params, strategyGroupSpec params, tbScreeningGroupSpec params, selfTestGroupSpec params⟩

/-- Claim C6, counterexample: the claim says the long-form VCT coded
identifier also sets EntryPointVCT, but the code's only VCT comparison is
against the number literal 159940; the long-form identifier converts to NaN,
no entry-point branch matches, and EntryPointVCT stays 0. -/
theorem C6_long_form_counterexample :
    (predictionVariables vctLongFormInput).EntryPointVCT = 0 ∧
    (predictionVariables vctLongFormInput).EntryPointVCT ≠ 1 := by
  constructor
  · rfl
  · decide

/-- Claim C6, amended: when the entry-point element loosely equals the number
159940 (the numeric VCT code, or a string that converts to it), the encoded
vector has EntryPointVCT = 1 and every other entry-point indicator 0. -/
theorem C6_entry_point_vct (params : RawInput) (h : jsEqNum params.p1 159940 = true) :
    (predictionVariables params).EntryPointVCT = 1 ∧
    (predictionVariables params).EntryPointOPD = 0 ∧
    (predictionVariables params).EntryPointMTC = 0 ∧
    (predictionVariables params).EntryPointIPD = 0 ∧
    (predictionVariables params).EntryPointMOBILE = 0 ∧
    (predictionVariables params).EntryPointOther = 0 ∧
    (predictionVariables params).EntryPointHB = 0 ∧
    (predictionVariables params).EntryPointPEDS = 0 ∧
    (predictionVariables params).EntryPointVMMC = 0 ∧
    (predictionVariables params).EntryPointTB = 0 ∧
    (predictionVariables params).EntryPointCCC = 0 ∧
    (predictionVariables params).EntryPointPNS = 0 := by
  simp [predictionVariables_EntryPointVCT, predictionVariables_EntryPointOPD,
    predictionVariables_EntryPointMTC, predictionVariables_EntryPointIPD,
    predictionVariables_EntryPointMOBILE, predictionVariables_EntryPointOther,
    predictionVariables_EntryPointHB, predictionVariables_EntryPointPEDS,
    predictionVariables_EntryPointVMMC, predictionVariables_EntryPointTB,
    predictionVariables_EntryPointCCC, predictionVariables_EntryPointPNS, h]

/-- Claim C6, witness: the amended theorem applied to the concrete input
whose entry-point element is the number 159940. -/
theorem C6_entry_point_vct_witness :
    (predictionVariables vctNumericInput).EntryPointVCT = 1 ∧
    (predictionVariables vctNumericInput).EntryPointOPD = 0 ∧
    (predictionVariables vctNumericInput).EntryPointMTC = 0 ∧
    (predictionVariables vctNumericInput).EntryPointIPD = 0 ∧
    (predictionVariables vctNumericInput).EntryPointMOBILE = 0 ∧
    (predictionVariables vctNumericInput).EntryPointOther = 0 ∧
    (predictionVariables vctNumericInput).EntryPointHB = 0 ∧
    (predictionVariables vctNumericInput).EntryPointPEDS = 0 ∧
    (predictionVariables vctNumericInput).EntryPointVMMC = 0 ∧
    (predictionVariables vctNumericInput).EntryPointTB = 0 ∧
    (predictionVariables vctNumericInput).EntryPointCCC = 0 ∧
    (predictionVariables vctNumericInput).EntryPointPNS = 0 :=
  C6_entry_point_vct vctNumericInput (by decide)

/-- Claim C7: whenever the age element (position 0) compares numerically
below 15, the encoded vector has MaritalStatusMinor = 1, and this holds no
matter what marital-status code sits at position 5 (the second conjunct
replaces position 5 with an arbitrary value). -/
theorem C7_minor_under_fifteen (params : RawInput) (v : JSValue)
    (h : jsLtNum params.p0 15 = true) :
    (predictionVariables params).MaritalStatusMinor = 1 ∧
    (predictionVariables { params with p5 := v }).MaritalStatusMinor = 1 := by
  constructor <;> simp [predictionVariables_MaritalStatusMinor, h]

/-- Claim C7, witness: the theorem applied at age 10 with the married
monogamous marital-status code substituted at position 5. -/
theorem C7_minor_under_fifteen_witness :
    (predictionVariables { blankInput with p0 := .num 10 }).MaritalStatusMinor = 1 ∧
    (predictionVariables { { blankInput with p0 := .num 10 } with
        p5 := .str "5555AAAAAAAAAAAAAAAAAAAAAAAAAAAAAAAA" }).MaritalStatusMinor = 1 :=
  C7_minor_under_fifteen { blankInput with p0 := .num 10 }
    (.str "5555AAAAAAAAAAAAAAAAAAAAAAAAAAAAAAAA") (by decide)

/-- Claim C8: a gender element equal to the male marker M gives
GenderMale = 1 and GenderFemale = 0, the female marker F gives the reverse,
and any value matching neither marker leaves both indicators 0. -/
theorem C8_gender_encoding (params : RawInput) :
    (jsEqStr params.p3 "M" = true →
      (predictionVariables params).GenderMale = 1 ∧
      (predictionVariables params).GenderFemale = 0) ∧
    (jsEqStr params.p3 "F" = true →
      (predictionVariables params).GenderFemale = 1 ∧
      (predictionVariables params).GenderMale = 0) ∧
    (jsEqStr params.p3 "M" = false → jsEqStr params.p3 "F" = false →
      (predictionVariables params).GenderMale = 0 ∧
      (predictionVariables params).GenderFemale = 0) := by
  refine ⟨fun hM => ?_, fun hF => ?_, fun hM hF => ?_⟩
  · have hF : jsEqStr params.p3 "F" = false :=
      jsEqStr_exclusive params.p3 "M" "F" (by decide) rfl hM
    simp [predictionVariables_GenderMale, predictionVariables_GenderFemale, hM, hF]
  · have hM : jsEqStr params.p3 "M" = false :=
      jsEqStr_exclusive params.p3 "F" "M" (by decide) rfl hF
    simp [predictionVariables_GenderMale, predictionVariables_GenderFemale, hM, hF]
  · simp [predictionVariables_GenderMale, predictionVariables_GenderFemale, hM, hF]

/-- Claim C9: AgeAtTest is 0 for every input (the age element is never
written into it), and replacing the age element changes at most the
MaritalStatusMinor flag of the encoded vector: overriding that one field
recovers the original vector. -/
theorem C9_age_written_nowhere (params : RawInput) (v : JSValue) :
    (predictionVariables params).AgeAtTest = 0 ∧
    { predictionVariables { params with p0 := v } with
        MaritalStatusMinor := (predictionVariables params).MaritalStatusMinor } =
      predictionVariables params := by
  constructor
  · simp [predictionVariables_AgeAtTest]
  · apply FeatureVector.ext <;>
      simp only [predictionVariables_AgeAtTest, predictionVariables_MonthsSinceLastTest,
        predictionVariables_GenderMale, predictionVariables_GenderFemale,
        predictionVariables_KeyPopulationTypeGP, predictionVariables_KeyPopulationTypeSW,
        predictionVariables_MaritalStatusMarried, predictionVariables_MaritalStatusDivorced,
        predictionVariables_MaritalStatusPolygamous, predictionVariables_MaritalStatusWidowed,
        predictionVariables_MaritalStatusSingle,
        predictionVariables_PatientDisabledNo, predictionVariables_PatientDisabledDisabled,
        predictionVariables_EverTestedForHIVYes, predictionVariables_EverTestedForHivNo,
        predictionVariables_ClientTestedAsIndividual, predictionVariables_ClientTestedAsCouple,
        predictionVariables_EntryPointVCT, predictionVariables_EntryPointOPD,
        predictionVariables_EntryPointMTC, predictionVariables_EntryPointIPD,
        predictionVariables_EntryPointMOBILE, predictionVariables_EntryPointOther,
        predictionVariables_EntryPointHB, predictionVariables_EntryPointPEDS,
        predictionVariables_EntryPointVMMC, predictionVariables_EntryPointTB,
        predictionVariables_EntryPointCCC, predictionVariables_EntryPointPNS,
        predictionVariables_TestingStrategyVCT, predictionVariables_TestingStrategyHB,
        predictionVariables_TestingStrategyMOBILE, predictionVariables_TestingStrategyHP,
        predictionVariables_TestingStrategyNP, predictionVariables_TBScreeningNoPresumedTB,
        predictionVariables_TBScreeningPresumedTB, predictionVariables_ClientSelfTestedNo,
        predictionVariables_ClientSelfTestedYes]

/-- Claim C10: the ever-tested group and the tested-as group both dispatch on
the element at position 2, whose value can loosely equal at most one of the
four concept codes involved, so the four indicators are 0/1 valued and sum to
at most 1: an ever-tested indicator and a tested-as indicator are never both
set. -/
theorem C10_single_dispatch_position_two (params : RawInput) :
    ((predictionVariables params).EverTestedForHIVYes = 0 ∨
      (predictionVariables params).EverTestedForHIVYes = 1) ∧
    ((predictionVariables params).EverTestedForHivNo = 0 ∨
      (predictionVariables params).EverTestedForHivNo = 1) ∧
    ((predictionVariables params).ClientTestedAsIndividual = 0 ∨
      (predictionVariables params).ClientTestedAsIndividual = 1) ∧
    ((predictionVariables params).ClientTestedAsCouple = 0 ∨
      (predictionVariables params).ClientTestedAsCouple = 1) ∧
    (predictionVariables params).EverTestedForHIVYes +
      (predictionVariables params).EverTestedForHivNo +
      (predictionVariables params).ClientTestedAsIndividual +
      (predictionVariables params).ClientTestedAsCouple ≤ 1 := by
  simp only [predictionVariables_EverTestedForHIVYes, predictionVariables_EverTestedForHivNo,
    predictionVariables_ClientTestedAsIndividual, predictionVariables_ClientTestedAsCouple]
  cases hp : params.p2 with
  | num q =>
    have e1 : jsEqStr (JSValue.num q) "1065AAAAAAAAAAAAAAAAAAAAAAAAAAAAAAAA" = false := rfl
    have e2 : jsEqStr (JSValue.num q) "1066AAAAAAAAAAAAAAAAAAAAAAAAAAAAAAAA" = false := rfl
    have e3 : jsEqStr (JSValue.num q) "164957AAAAAAAAAAAAAAAAAAAAAAAAAAAAAA" = false := rfl
    have e4 : jsEqStr (JSValue.num q) "164958AAAAAAAAAAAAAAAAAAAAAAAAAAAAAA" = false := rfl
    simp only [e1, e2, e3, e4]
    norm_num
  | str s =>
    by_cases h1 : s = "1065AAAAAAAAAAAAAAAAAAAAAAAAAAAAAAAA"
    · subst h1
      have g1 : jsEqStr (JSValue.str "1065AAAAAAAAAAAAAAAAAAAAAAAAAAAAAAAA")
          "1065AAAAAAAAAAAAAAAAAAAAAAAAAAAAAAAA" = true := by decide
      have g2 : jsEqStr (JSValue.str "1065AAAAAAAAAAAAAAAAAAAAAAAAAAAAAAAA")
          "1066AAAAAAAAAAAAAAAAAAAAAAAAAAAAAAAA" = false := by decide
      have g3 : jsEqStr (JSValue.str "1065AAAAAAAAAAAAAAAAAAAAAAAAAAAAAAAA")
          "164957AAAAAAAAAAAAAAAAAAAAAAAAAAAAAA" = false := by decide
      have g4 : jsEqStr (JSValue.str "1065AAAAAAAAAAAAAAAAAAAAAAAAAAAAAAAA")
          "164958AAAAAAAAAAAAAAAAAAAAAAAAAAAAAA" = false := by decide
      simp only [g1, g2, g3, g4]
      norm_num
    · by_cases h2 : s = "1066AAAAAAAAAAAAAAAAAAAAAAAAAAAAAAAA"
      · subst h2
        have g1 : jsEqStr (JSValue.str "1066AAAAAAAAAAAAAAAAAAAAAAAAAAAAAAAA")
            "1065AAAAAAAAAAAAAAAAAAAAAAAAAAAAAAAA" = false := by decide
        have g2 : jsEqStr (JSValue.str "1066AAAAAAAAAAAAAAAAAAAAAAAAAAAAAAAA")
            "1066AAAAAAAAAAAAAAAAAAAAAAAAAAAAAAAA" = true := by decide
        have g3 : jsEqStr (JSValue.str "1066AAAAAAAAAAAAAAAAAAAAAAAAAAAAAAAA")
            "164957AAAAAAAAAAAAAAAAAAAAAAAAAAAAAA" = false := by decide
        have g4 : jsEqStr (JSValue.str "1066AAAAAAAAAAAAAAAAAAAAAAAAAAAAAAAA")
            "164958AAAAAAAAAAAAAAAAAAAAAAAAAAAAAA" = false := by decide
        simp only [g1, g2, g3, g4]
        norm_num
      · by_cases h3 : s = "164957AAAAAAAAAAAAAAAAAAAAAAAAAAAAAA"
        · subst h3
          have g1 : jsEqStr (JSValue.str "164957AAAAAAAAAAAAAAAAAAAAAAAAAAAAAA")
              "1065AAAAAAAAAAAAAAAAAAAAAAAAAAAAAAAA" = false := by decide
          have g2 : jsEqStr (JSValue.str "164957AAAAAAAAAAAAAAAAAAAAAAAAAAAAAA")
              "1066AAAAAAAAAAAAAAAAAAAAAAAAAAAAAAAA" = false := by decide
          have g3 : jsEqStr (JSValue.str "164957AAAAAAAAAAAAAAAAAAAAAAAAAAAAAA")
              "164957AAAAAAAAAAAAAAAAAAAAAAAAAAAAAA" = true := by decide
          have g4 : jsEqStr (JSValue.str "164957AAAAAAAAAAAAAAAAAAAAAAAAAAAAAA")
              "164958AAAAAAAAAAAAAAAAAAAAAAAAAAAAAA" = false := by decide
          simp only [g1, g2, g3, g4]
          norm_num
        · by_cases h4 : s = "164958AAAAAAAAAAAAAAAAAAAAAAAAAAAAAA"
          · subst h4
            have g1 : jsEqStr (JSValue.str "164958AAAAAAAAAAAAAAAAAAAAAAAAAAAAAA")
                "1065AAAAAAAAAAAAAAAAAAAAAAAAAAAAAAAA" = false := by decide
            have g2 : jsEqStr (JSValue.str "164958AAAAAAAAAAAAAAAAAAAAAAAAAAAAAA")
                "1066AAAAAAAAAAAAAAAAAAAAAAAAAAAAAAAA" = false := by decide
            have g3 : jsEqStr (JSValue.str "164958AAAAAAAAAAAAAAAAAAAAAAAAAAAAAA")
                "164957AAAAAAAAAAAAAAAAAAAAAAAAAAAAAA" = false := by decide
            have g4 : jsEqStr (JSValue.str "164958AAAAAAAAAAAAAAAAAAAAAAAAAAAAAA")
                "164958AAAAAAAAAAAAAAAAAAAAAAAAAAAAAA" = true := by decide
            simp only [g1, g2, g3, g4]
            norm_num
          · have e1 : jsEqStr (JSValue.str s) "1065AAAAAAAAAAAAAAAAAAAAAAAAAAAAAAAA" = false := by
              simp [jsEqStr, h1]
            have e2 : jsEqStr (JSValue.str s) "1066AAAAAAAAAAAAAAAAAAAAAAAAAAAAAAAA" = false := by
              simp [jsEqStr, h2]
            have e3 : jsEqStr (JSValue.str s) "164957AAAAAAAAAAAAAAAAAAAAAAAAAAAAAA" = false := by
              simp [jsEqStr, h3]
            have e4 : jsEqStr (JSValue.str s) "164958AAAAAAAAAAAAAAAAAAAAAAAAAAAAAA" = false := by
              simp [jsEqStr, h4]
            simp only [e1, e2, e3, e4]
            norm_num
